import Mathlib

/-!
Verification of the inspection evidence integrity pipeline of
proveniq-properties against its specification.

The development shallowly embeds the relevant backend modules:

* `app/services/canonical.py` — whitelist-based canonical JSON serializer
  and SHA-256 content hashing (Golden Master v2.3.1);
* `app/core/security.py` — the legacy `compute_content_hash` scheme;
* `app/services/jobs.py` — the jobs outbox (`enqueue`, `complete_job`);
* `app/routers/inspections.py` — the inspection lifecycle endpoints
  (`upsert_inspection_item`, `confirm_evidence_upload`, `submit_inspection`,
  `sign_inspection`, `attest_inspection`) together with
  `get_inspection_with_auth`;
* `app/models/*.py` — the SQLAlchemy models backing those endpoints.

Python datetimes are modelled at second precision (the canonical encoder
renders second precision only), machine integers as `Int`/`Nat`, UUIDs as
strings (the serializer only ever uses `str(uuid)`), and JSON values as an
inductive type whose serializer mirrors `json.dumps(..., sort_keys=True,
separators=(",", ":"))` for both `ensure_ascii` modes.  SHA-256 is
implemented in full so that hashes of concrete inputs can be computed
inside proofs.

Unhandled Python exceptions (for example the `AttributeError`s raised by
the router's references to columns renamed or dropped by migration
`003_golden_master`, and by the call to the nonexistent
`StorageService.head_object`) are modelled as a distinguished
`HErr.serverError` result, as FastAPI turns them into HTTP 500 responses.
-/

/-! ## Datetimes (Python `datetime`, second precision) -/

/-- Model of a Python `datetime` at second precision.  `datetime` values
compare field-lexicographically in Python, which is the order induced by
`DT.fields` below. -/
structure DT where
  year : Nat
  month : Nat
  day : Nat
  hour : Nat
  minute : Nat
  second : Nat
deriving DecidableEq

/-- Field list of a datetime, in Python's comparison order. -/
def DT.fields (t : DT) : List Nat :=
  [t.year, t.month, t.day, t.hour, t.minute, t.second]

theorem DT.fields_injective : Function.Injective DT.fields := by
  intro a b h
  simp only [DT.fields, List.cons.injEq, and_true] at h
  obtain ⟨h1, h2, h3, h4, h5, h6⟩ := h
  cases a; cases b; simp_all

/-- Python `datetime` comparison is lexicographic on the fields. -/
instance : LinearOrder DT := LinearOrder.lift' DT.fields DT.fields_injective

/-- Zero-pad a natural number to two digits (`strftime` `%m` etc.). -/
def pad2 (n : Nat) : String :=
  if n < 10 then "0" ++ toString n else toString n

/-- Zero-pad a natural number to four digits (`strftime` `%Y`). -/
def pad4 (n : Nat) : String :=
  if n < 10 then "000" ++ toString n
  else if n < 100 then "00" ++ toString n
  else if n < 1000 then "0" ++ toString n
  else toString n

/-- Rendering used by the canonical encoder:
`value.strftime("%Y-%m-%dT%H:%M:%SZ")`. -/
def DT.strftimeZ (t : DT) : String :=
  pad4 t.year ++ "-" ++ pad2 t.month ++ "-" ++ pad2 t.day ++ "T" ++
    pad2 t.hour ++ ":" ++ pad2 t.minute ++ ":" ++ pad2 t.second ++ "Z"

/-- Python `datetime.isoformat()` at second precision (no suffix),
used by the attestation path's inline hash. -/
def DT.isoformat (t : DT) : String :=
  pad4 t.year ++ "-" ++ pad2 t.month ++ "-" ++ pad2 t.day ++ "T" ++
    pad2 t.hour ++ ":" ++ pad2 t.minute ++ ":" ++ pad2 t.second

/-! ## JSON values and `json.dumps` -/

/-- JSON values as produced by the canonical serializer: no floats occur
(the serializer raises on floats), so only null, bools, ints, strings,
arrays and objects are representable. -/
inductive Json where
  | null : Json
  | bool (b : Bool) : Json
  | int (n : Int) : Json
  | str (s : String) : Json
  | arr (elems : List Json) : Json
  | obj (kvs : List (String × Json)) : Json

/-- Sort key comparison: `keyLe key a b` holds when `key a ≤ key b`.
This is the comparison Python's `sorted(l, key=key)` uses. -/
def keyLe {α : Type _} {κ : Type _} [LinearOrder κ] (key : α → κ) (a b : α) : Prop :=
  key a ≤ key b

instance {α κ : Type _} [LinearOrder κ] (key : α → κ) : DecidableRel (keyLe key) :=
  fun a b => inferInstanceAs (Decidable (key a ≤ key b))

instance {α κ : Type _} [LinearOrder κ] (key : α → κ) : IsTotal α (keyLe key) :=
  ⟨fun a b => le_total (key a) (key b)⟩

instance {α κ : Type _} [LinearOrder κ] (key : α → κ) : IsTrans α (keyLe key) :=
  ⟨fun _ _ _ hab hbc => le_trans hab hbc⟩

/-- Model of Python's `sorted(l, key=key)`: a stable sort by the key.
`List.insertionSort` with the `≤`-on-keys relation is stable, and any two
stable sorts by the same key agree, so this coincides with CPython's
Timsort output. -/
def pySorted {α : Type _} {κ : Type _} [LinearOrder κ] (key : α → κ) (l : List α) : List α :=
  List.insertionSort (keyLe key) l

theorem pySorted_perm {α κ : Type _} [LinearOrder κ] (key : α → κ) (l : List α) :
    (pySorted key l).Perm l :=
  List.perm_insertionSort _ l

/-- Code-point sequence of a string.  Python compares strings
lexicographically by code points, which is exactly the lexicographic
order on these `List Nat` encodings (the encoding is an order
embedding), so sort keys use it below. -/
def pyStr (s : String) : List Nat :=
  s.data.map Char.toNat

/-- Lowercase hexadecimal digit. -/
def hexDigit (n : Nat) : Char :=
  if n < 10 then Char.ofNat (48 + n) else Char.ofNat (87 + n)

/-- Two lowercase hex digits of a byte. -/
def hex2 (n : Nat) : String :=
  ⟨[hexDigit (n / 16 % 16), hexDigit (n % 16)]⟩

/-- Four lowercase hex digits. -/
def hex4 (n : Nat) : String :=
  hex2 (n / 256) ++ hex2 (n % 256)

/-- Eight lowercase hex digits of a 32-bit word. -/
def hex8 (n : Nat) : String :=
  hex4 (n / 65536) ++ hex4 (n % 65536)

/-- Escape of a single character inside a JSON string literal, following
CPython's `json` module: `"` and `\` and the C control escapes, `\uXXXX`
for other control characters, and — when `ensure_ascii` is set — `\uXXXX`
(with surrogate pairs beyond the BMP) for every character outside
`0x20..0x7e`. -/
def jsonEscapeChar (ascii : Bool) (c : Char) : String :=
  if c = '"' then "\\\""
  else if c = '\\' then "\\\\"
  else if c = '\n' then "\\n"
  else if c = '\t' then "\\t"
  else if c = '\r' then "\\r"
  else if c = '\x08' then "\\b"
  else if c = '\x0c' then "\\f"
  else if c.toNat < 32 then "\\u" ++ hex4 c.toNat
  else if 126 < c.toNat ∧ ascii = true then
    if c.toNat < 65536 then "\\u" ++ hex4 c.toNat
    else
      "\\u" ++ hex4 (55296 + (c.toNat - 65536) / 1024) ++
        "\\u" ++ hex4 (56320 + (c.toNat - 65536) % 1024)
  else String.singleton c

/-- Quoted JSON string literal. -/
def jsonQuote (ascii : Bool) (s : String) : String :=
  "\"" ++ String.join (s.data.map (jsonEscapeChar ascii)) ++ "\""

/-- Comma join (`separators=(",", ":")` puts no whitespace after commas). -/
def joinComma : List String → String
  | [] => ""
  | [s] => s
  | s :: rest => s ++ "," ++ joinComma rest

/-- Rendering of one (key, rendered value) object entry. -/
def renderEntry (ascii : Bool) (p : String × String) : String :=
  jsonQuote ascii p.1 ++ ":" ++ p.2

mutual

/-- Model of `json.dumps(v, sort_keys=True, separators=(",", ":"))` with
the given `ensure_ascii` mode: object keys are sorted at serialization
time, no whitespace is inserted.  (CPython sorts the `(key, value)` item
pairs; since dict keys are distinct, sorting the `(key, rendered value)`
pairs by key — as done here so that the recursion stays structural —
produces the identical output.) -/
def jsonDumps (ascii : Bool) : Json → String
  | .null => "null"
  | .bool b => if b then "true" else "false"
  | .int n => toString n
  | .str s => jsonQuote ascii s
  | .arr elems => "[" ++ joinComma (jsonDumpsList ascii elems) ++ "]"
  | .obj kvs =>
      "\x7b" ++
        joinComma ((pySorted (fun p => pyStr p.1) (jsonDumpsPairs ascii kvs)).map (renderEntry ascii)) ++
        "\x7d"

/-- Serializations of array elements. -/
def jsonDumpsList (ascii : Bool) : List Json → List String
  | [] => []
  | v :: vs => jsonDumps ascii v :: jsonDumpsList ascii vs

/-- Serializations of object entries (values rendered, keys kept). -/
def jsonDumpsPairs (ascii : Bool) : List (String × Json) → List (String × String)
  | [] => []
  | (k, v) :: kvs => (k, jsonDumps ascii v) :: jsonDumpsPairs ascii kvs

end

/-! ## UTF-8 and SHA-256 -/

/-- UTF-8 encoding of a single character, as a byte list. -/
def utf8Char (c : Char) : List Nat :=
  let n := c.toNat
  if n < 128 then [n]
  else if n < 2048 then [192 + n / 64, 128 + n % 64]
  else if n < 65536 then [224 + n / 4096, 128 + n / 64 % 64, 128 + n % 64]
  else [240 + n / 262144, 128 + n / 4096 % 64, 128 + n / 64 % 64, 128 + n % 64]

/-- UTF-8 encoding of a string (`s.encode("utf-8")`). -/
def utf8Bytes (s : String) : List Nat :=
  s.data.foldr (fun c acc => utf8Char c ++ acc) []

/-- SHA-256 round constants. -/
def sha256K : List Nat :=
  [1116352408, 1899447441, 3049323471, 3921009573, 961987163, 1508970993,
   2453635748, 2870763221, 3624381080, 310598401, 607225278, 1426881987,
   1925078388, 2162078206, 2614888103, 3248222580, 3835390401, 4022224774,
   264347078, 604807628, 770255983, 1249150122, 1555081692, 1996064986,
   2554220882, 2821834349, 2952996808, 3210313671, 3336571891, 3584528711,
   113926993, 338241895, 666307205, 773529912, 1294757372, 1396182291,
   1695183700, 1986661051, 2177026350, 2456956037, 2730485921, 2820302411,
   3259730800, 3345764771, 3516065817, 3600352804, 4094571909, 275423344,
   430227734, 506948616, 659060556, 883997877, 958139571, 1322822218,
   1537002063, 1747873779, 1955562222, 2024104815, 2227730452, 2361852424,
   2428436474, 2756734187, 3204031479, 3329325298]

/-- SHA-256 initial hash values. -/
def sha256H0 : List Nat :=
  [1779033703, 3144134277, 1013904242, 2773480762, 1359893119, 2600822924,
   528734635, 1541459225]

/-- Right rotation of a 32-bit word. -/
def rotr32 (x n : Nat) : Nat :=
  (x >>> n) ||| ((x <<< (32 - n)) % 4294967296)

/-- SHA-256 message-schedule sigma functions. -/
def sha256s0 (w : Nat) : Nat := rotr32 w 7 ^^^ rotr32 w 18 ^^^ (w >>> 3)

def sha256s1 (w : Nat) : Nat := rotr32 w 17 ^^^ rotr32 w 19 ^^^ (w >>> 10)

/-- SHA-256 compression Sigma functions. -/
def sha256S0 (a : Nat) : Nat := rotr32 a 2 ^^^ rotr32 a 13 ^^^ rotr32 a 22

def sha256S1 (e : Nat) : Nat := rotr32 e 6 ^^^ rotr32 e 11 ^^^ rotr32 e 25

/-- SHA-256 choice function. -/
def sha256Ch (e f g : Nat) : Nat := (e &&& f) ^^^ ((e ^^^ 4294967295) &&& g)

/-- SHA-256 majority function. -/
def sha256Maj (a b c : Nat) : Nat := (a &&& b) ^^^ (a &&& c) ^^^ (b &&& c)

/-- Big-endian 8-byte encoding of the bit length. -/
def be8 (n : Nat) : List Nat :=
  [n / 72057594037927936 % 256, n / 281474976710656 % 256,
   n / 1099511627776 % 256, n / 4294967296 % 256,
   n / 16777216 % 256, n / 65536 % 256, n / 256 % 256, n % 256]

/-- SHA-256 message padding. -/
def sha256Pad (msg : List Nat) : List Nat :=
  let len := msg.length
  let zeros := (64 + 56 - (len + 1) % 64) % 64
  msg ++ [128] ++ List.replicate zeros 0 ++ be8 (8 * len)

/-- Big-endian 32-bit words of a byte list. -/
def bytesToWords : List Nat → List Nat
  | a :: b :: c :: d :: rest => (((a * 256 + b) * 256 + c) * 256 + d) :: bytesToWords rest
  | _ => []

/-- Next word of the SHA-256 message schedule. -/
def sha256NextW (ws : List Nat) : Nat :=
  let n := ws.length
  (sha256s1 (ws.getD (n - 2) 0) + ws.getD (n - 7) 0 +
    sha256s0 (ws.getD (n - 15) 0) + ws.getD (n - 16) 0) % 4294967296

/-- Full 64-word message schedule from the 16 block words. -/
def sha256Schedule (w16 : List Nat) : List Nat :=
  (List.range 48).foldl (fun ws _ => ws ++ [sha256NextW ws]) w16

/-- One SHA-256 compression round. -/
def sha256Round (st : List Nat) (kw : Nat × Nat) : List Nat :=
  match st with
  | [a, b, c, d, e, f, g, h] =>
    let t1 := (h + sha256S1 e + sha256Ch e f g + kw.1 + kw.2) % 4294967296
    let t2 := (sha256S0 a + sha256Maj a b c) % 4294967296
    [(t1 + t2) % 4294967296, a, b, c, (d + t1) % 4294967296, e, f, g]
  | other => other

/-- Compression of a single 16-word block into the running hash state. -/
def sha256CompressW (h : List Nat) (block : List Nat) : List Nat :=
  let ws := sha256Schedule block
  let st := (sha256K.zip ws).foldl sha256Round h
  (h.zip st).map (fun p => (p.1 + p.2) % 4294967296)

/-- Grouping of the word stream into 16-word blocks (the padded message
always has a multiple of 16 words). -/
def wordsToBlocks : List Nat → List (List Nat)
  | w0 :: w1 :: w2 :: w3 :: w4 :: w5 :: w6 :: w7 ::
      w8 :: w9 :: w10 :: w11 :: w12 :: w13 :: w14 :: w15 :: rest =>
      [w0, w1, w2, w3, w4, w5, w6, w7, w8, w9, w10, w11, w12, w13, w14, w15] ::
        wordsToBlocks rest
  | _ => []

/-- SHA-256 digest (eight 32-bit words) of a byte list. -/
def sha256Digest (msg : List Nat) : List Nat :=
  (wordsToBlocks (bytesToWords (sha256Pad msg))).foldl sha256CompressW sha256H0

/-- Model of `hashlib.sha256(s.encode("utf-8")).hexdigest()`. -/
def sha256hex (s : String) : String :=
  String.join ((sha256Digest (utf8Bytes s)).map hex8)

/-! ## Domain enums (`app/models/enums.py`)

Every enum below subclasses `str`, so the canonical encoder serializes it
as its underlying `value` string. -/

/-- Status of an inspection. -/
inductive InspectionStatus where
  | draft | submitted | reviewed | signed | archived
deriving DecidableEq

/-- Underlying string code of an inspection status. -/
def InspectionStatus.value : InspectionStatus → String
  | .draft => "draft"
  | .submitted => "submitted"
  | .reviewed => "reviewed"
  | .signed => "signed"
  | .archived => "archived"

/-- Type of inspection. -/
inductive InspectionType where
  | move_in | move_out | periodic | pre_stay | post_stay
deriving DecidableEq

/-- Underlying string code of an inspection type. -/
def InspectionType.value : InspectionType → String
  | .move_in => "move_in"
  | .move_out => "move_out"
  | .periodic => "periodic"
  | .pre_stay => "pre_stay"
  | .post_stay => "post_stay"

/-- Scope of an inspection. -/
inductive InspectionScope where
  | lease | booking
deriving DecidableEq

/-- Condition of an inspection item. -/
inductive InspectionCondition where
  | good | fair | damaged | not_present
deriving DecidableEq

/-- Underlying string code of an item condition. -/
def InspectionCondition.value : InspectionCondition → String
  | .good => "good"
  | .fair => "fair"
  | .damaged => "damaged"
  | .not_present => "not_present"

/-- Source of an evidence upload. -/
inductive EvidenceSource where
  | tenant | landlord | vendor | system
deriving DecidableEq

/-- Underlying string code of an evidence source. -/
def EvidenceSource.value : EvidenceSource → String
  | .tenant => "tenant"
  | .landlord => "landlord"
  | .vendor => "vendor"
  | .system => "system"

/-- Storage provider instance identifier kind. -/
inductive StorageInstanceKind where
  | gcs_generation | s3_etag
deriving DecidableEq

/-- Underlying string code of a storage instance kind. -/
def StorageInstanceKind.value : StorageInstanceKind → String
  | .gcs_generation => "gcs_generation"
  | .s3_etag => "s3_etag"

/-- Who signed the inspection (STR attestation path). -/
inductive InspectionSignedBy where
  | TENANT | LANDLORD_ORG_MEMBER | HOST_SYSTEM
deriving DecidableEq

/-- Status of an async job in the outbox. -/
inductive JobStatus where
  | pending | processing | completed | failed | dead_letter
deriving DecidableEq

/-! ## Models (`app/models/inspection.py`, `app/models/jobs.py`)

UUID columns are modelled as strings (the canonical encoder only ever
uses `str(uuid)`), JSONB columns as `Json`, and nullable columns as
`Option`.  Items are nested inside their inspection and evidence inside
its item, mirroring the `selectinload` used by the router. -/

/-- One uploaded evidence file attached to an inspection item. -/
structure InspectionEvidence where
  id : String
  inspection_item_id : String
  object_path : String
  mime_type : String
  size_bytes : Int
  file_sha256_claimed : String
  file_sha256_verified : Option String
  confirmed_at : DT
  evidence_source : EvidenceSource
  storage_instance_kind : StorageInstanceKind
  storage_instance_id : String
  confirm_idempotency_key : String
  created_at : DT
deriving DecidableEq

/-- One item within an inspection (Golden Master v2.3.1 pattern:
`room_key`/`item_key`/`ordinal`/`condition`). -/
structure InspectionItem where
  id : String
  room_key : String
  item_key : String
  ordinal : Int
  condition : InspectionCondition
  notes : Option String
  mason_estimated_repair_cents : Option Int
  evidence : List InspectionEvidence
deriving DecidableEq

/-- One inspection record. -/
structure Inspection where
  id : String
  lease_id : String
  inspection_type : InspectionType
  status : InspectionStatus
  scope : InspectionScope
  booking_id : Option String
  inspection_date : DT
  locked_at : Option DT
  device_signed_at : Option DT
  captured_offline : Bool
  content_hash : Option String
  canonical_json_blob : Option Json
  canonical_json_sha256 : Option String
  tenant_signed_at : Option DT
  landlord_signed_at : Option DT
  signed_by : Option InspectionSignedBy
  signed_actor_id : Option String
  signed_at : Option DT
  notes : Option String
  items : List InspectionItem

/-- One queued unit of async work (`jobs_outbox`). -/
structure JobsOutbox where
  id : String
  type : String
  payload : Json
  status : JobStatus
  unique_scope : String
  attempts : Int
  max_attempts : Int
  last_error : Option String
  run_after : DT
  created_at : DT
  started_at : Option DT
  completed_at : Option DT

/-- One append-only audit log row. -/
structure AuditLog where
  action : String
  resource_type : String
  resource_id : String
  org_id : Option String
  user_id : Option String
  details : Json
  ip_address : Option String

/-! ## Canonical serializer (`app/services/canonical.py`)

`normalize_value` dispatches on the Python runtime type of each field; in
this typed embedding one helper per branch is used.  All the enums are
`str` subclasses, so they take the string branch (empty check, then the
value itself); UUIDs take the UUID branch (always rendered); datetimes are
rendered with second-precision UTC `Z` format without an empty check. -/

/-- String branch of `normalize_value`: empty strings are stripped. -/
def normalize_str (value : String) : Option Json :=
  if value = "" then none else some (.str value)

/-- Nullable string field: nulls stripped, then the string branch. -/
def normalize_opt_str : Option String → Option Json
  | none => none
  | some s => normalize_str s

/-- Datetime branch of `normalize_value`. -/
def normalize_dt (value : DT) : Option Json :=
  some (.str value.strftimeZ)

/-- Nullable datetime field. -/
def normalize_opt_dt : Option DT → Option Json
  | none => none
  | some t => normalize_dt t

/-- Bool branch (checked before int in the source, so `False` survives). -/
def normalize_bool (value : Bool) : Option Json :=
  some (.bool value)

/-- Int branch. -/
def normalize_int (value : Int) : Option Json :=
  some (.int value)

/-- UUID branch: `str(value)`, no empty-string check. -/
def normalize_uuid (value : String) : Option Json :=
  some (.str value)

/-- Object from whitelisted fields: entries whose normalization returned
`None` are stripped (`extract_whitelist`). -/
def whitelistObj (fields : List (String × Option Json)) : Json :=
  .obj (fields.filterMap (fun p => p.2.map (fun v => (p.1, v))))

/-- Canonical header of an inspection (`HEADER_FIELDS` whitelist). -/
def build_canonical_header (inspection : Inspection) : Json :=
  whitelistObj
    [("inspection_id", normalize_uuid inspection.id),
     ("lease_id", normalize_uuid inspection.lease_id),
     ("type", normalize_str inspection.inspection_type.value),
     ("status", normalize_str inspection.status.value),
     ("locked_at", normalize_opt_dt inspection.locked_at),
     ("device_signed_at", normalize_opt_dt inspection.device_signed_at),
     ("captured_offline", normalize_bool inspection.captured_offline)]

/-- Canonical form of an inspection item (`ITEM_FIELDS` whitelist). -/
def build_canonical_item (item : InspectionItem) : Json :=
  whitelistObj
    [("room_key", normalize_str item.room_key),
     ("item_key", normalize_str item.item_key),
     ("ordinal", normalize_int item.ordinal),
     ("condition", normalize_str item.condition.value),
     ("notes", normalize_opt_str item.notes)]

/-- Canonical form of one evidence row (`EVIDENCE_FIELDS` whitelist). -/
def build_canonical_evidence (evidence : InspectionEvidence) : Json :=
  whitelistObj
    [("object_path", normalize_str evidence.object_path),
     ("mime_type", normalize_str evidence.mime_type),
     ("confirmed_at", normalize_dt evidence.confirmed_at),
     ("storage_instance_kind", normalize_str evidence.storage_instance_kind.value),
     ("storage_instance_id", normalize_str evidence.storage_instance_id),
     ("evidence_source", normalize_str evidence.evidence_source.value),
     ("file_sha256_verified", normalize_opt_str evidence.file_sha256_verified)]

/-- Sort key of an item: the Python tuple `(room_key, ordinal, item_key)`
compared lexicographically. -/
def itemSortKey (x : InspectionItem) : List Nat ×ₗ (Int ×ₗ List Nat) :=
  toLex (pyStr x.room_key, toLex (x.ordinal, pyStr x.item_key))

/-- Sort key of an evidence row: the tuple `(confirmed_at, object_path)`. -/
def evidenceSortKey (x : InspectionEvidence) : DT ×ₗ List Nat :=
  toLex (x.confirmed_at, pyStr x.object_path)

/-- Canonical entry for one item together with its sorted evidence. -/
def build_canonical_item_entry (item : InspectionItem) : Json :=
  .obj [("item", build_canonical_item item),
        ("evidence", .arr ((pySorted evidenceSortKey item.evidence).map build_canonical_evidence))]

/-- Full canonical payload: header plus items sorted by
`(room_key, ordinal, item_key)`, each with evidence sorted by
`(confirmed_at, object_path)`. -/
def build_canonical_payload (inspection : Inspection) : Json :=
  .obj [("header", build_canonical_header inspection),
        ("items", .arr ((pySorted itemSortKey inspection.items).map build_canonical_item_entry))]

/-- Canonical JSON string: sorted keys, compact separators,
`ensure_ascii=False`, UTF-8. -/
def serialize_canonical (payload : Json) : String :=
  jsonDumps false payload

/-- Canonical hash of an inspection: the payload, its canonical JSON, and
the lowercase-hex SHA-256 of its UTF-8 bytes. -/
def compute_canonical_hash (inspection : Inspection) : Json × String × String :=
  let payload := build_canonical_payload inspection
  let canonical_json := serialize_canonical payload
  (payload, canonical_json, sha256hex canonical_json)

/-! ## Legacy content hash (`app/core/security.py`) -/

/-- Model of `security.compute_content_hash(data, schema_version)`: adds
the schema version key, then hashes the sorted-keys compact JSON dump
(this one with the default `ensure_ascii=True`). -/
def compute_content_hash (data : Json) (schema_version : Int) : String :=
  let canonical_data :=
    match data with
    | .obj kvs => Json.obj (("schema_version", Json.int schema_version) :: kvs)
    | other => other
  sha256hex (jsonDumps true canonical_data)

/-! ## Jobs outbox service (`app/services/jobs.py`)

The service operates on the `jobs_outbox` table, modelled as a list of
rows.  `enqueue` mirrors `INSERT ... ON CONFLICT (unique_scope) DO
NOTHING` with a freshly generated id: the statement's rowcount is zero —
and `None` is returned — exactly when a row with the same `unique_scope`
already exists. -/

namespace JobsService

/-- Enqueue a job with `unique_scope` de-duplication.  Returns the new
job id, or `none` (with the table unchanged) on a duplicate scope. -/
def enqueue (jobs : List JobsOutbox) (job_id : String) (job_type : String)
    (payload : Json) (unique_scope : String) (run_after : Option DT) (now : DT) :
    Option String × List JobsOutbox :=
  if jobs.any (fun j => j.unique_scope == unique_scope) then
    (none, jobs)
  else
    (some job_id,
      jobs ++ [{ id := job_id, type := job_type, payload := payload,
                 status := .pending, unique_scope := unique_scope,
                 attempts := 0, max_attempts := 3, last_error := none,
                 run_after := run_after.getD now, created_at := now,
                 started_at := none, completed_at := none }])

/-- Wrapper `enqueue_verify_hash`: scope `verify_hash:evidence:{id}`. -/
def enqueue_verify_hash (jobs : List JobsOutbox) (job_id : String)
    (evidence_id : String) (object_path : String) (claimed_hash : String) (now : DT) :
    Option String × List JobsOutbox :=
  enqueue jobs job_id ("verify_hash")
    (.obj [("evidence_id", .str evidence_id),
           ("object_path", .str object_path),
           ("claimed_hash", .str claimed_hash)])
    ("verify_hash:evidence:" ++ evidence_id) none now

/-- Wrapper `enqueue_generate_certificate`: scope
`generate_certificate:inspection:{id}`. -/
def enqueue_generate_certificate (jobs : List JobsOutbox) (job_id : String)
    (inspection_id : String) (content_hash : String) (now : DT) :
    Option String × List JobsOutbox :=
  enqueue jobs job_id ("generate_certificate")
    (.obj [("inspection_id", .str inspection_id),
           ("content_hash", .str content_hash)])
    ("generate_certificate:inspection:" ++ inspection_id) none now

/-- Mark a job as completed: `UPDATE jobs_outbox SET status=COMPLETED,
completed_at=now() WHERE id = job_id` — no condition on the current
status. -/
def complete_job (jobs : List JobsOutbox) (job_id : String) (now : DT) :
    List JobsOutbox :=
  jobs.map (fun j =>
    if j.id == job_id then
      { j with status := .completed, completed_at := some now }
    else j)

end JobsService

/-! ## Authorization context (`app/core/security.py`, router helpers) -/

/-- Authenticated caller: database user id and organization scope, as
resolved by `get_current_user`. -/
structure AuthenticatedUser where
  db_user_id : Option String
  org_id : Option String
deriving DecidableEq

/-- Property row (`properties.id`, `properties.org_id`). -/
structure PropertyRow where
  id : String
  org_id : String
deriving DecidableEq

/-- Unit row (`units.id`, `units.property_id`). -/
structure UnitRow where
  id : String
  property_id : String
deriving DecidableEq

/-- Lease row (`leases.id`, `leases.unit_id`). -/
structure LeaseRow where
  id : String
  unit_id : String
deriving DecidableEq

/-- Tenant access grant (`tenant_access.lease_id`, `tenant_access.user_id`). -/
structure TenantAccessRow where
  lease_id : String
  user_id : String
deriving DecidableEq

/-- Read-only tables consulted by the authorization joins. -/
structure AuthTables where
  properties : List PropertyRow
  units : List UnitRow
  leases : List LeaseRow
  tenant_access : List TenantAccessRow
deriving DecidableEq

/-- Join `Lease → Unit → Property` filtered on the caller's org:
`select(Lease).join(Unit).join(Property).where(Lease.id == ..,
Property.org_id == ..)` is nonempty. -/
def orgLeaseExists (t : AuthTables) (lease_id org : String) : Bool :=
  t.leases.any fun l =>
    l.id == lease_id && t.units.any fun u =>
      u.id == l.unit_id && t.properties.any fun p =>
        p.id == u.property_id && p.org_id == org

/-- Tenant access check: a `tenant_access` row for this lease and user. -/
def tenantAccessExists (t : AuthTables) (lease_id user_id : String) : Bool :=
  t.tenant_access.any fun a => a.lease_id == lease_id && a.user_id == user_id

/-- Error results of the lifecycle endpoints.  `badRequest` carries the
HTTP 400 detail string (the `WrongState` rejection is the one with detail
`"Inspection is not in draft status"`); `serverError` models an unhandled
Python exception surfacing as HTTP 500. -/
inductive HErr where
  | notFound (detail : String)
  | forbidden (detail : String)
  | badRequest (detail : String)
  | serverError (detail : String)
deriving DecidableEq

/-- Result of `scalar_one_or_none()`: `none` for no row, the row if
unique, and a `MultipleResultsFound` server error otherwise. -/
def scalarOneOrNone {α : Type _} : List α → Except HErr (Option α)
  | [] => .ok none
  | [a] => .ok (some a)
  | _ => .error (.serverError ("MultipleResultsFound"))

/-- Model of `get_inspection_with_auth`: load the inspection, check
authorization through the property chain (org member) or tenant access
grant, then optionally require draft status.  The draft gate inspects
only `status`; `locked_at` is never read. -/
def get_inspection_with_auth (tables : AuthTables) (inspections : List Inspection)
    (current_user : AuthenticatedUser) (inspection_id : String)
    (require_draft : Bool) : Except HErr Inspection := do
  let inspection ←
    match inspections.find? (fun i => i.id == inspection_id) with
    | none => .error (.notFound ("Inspection not found"))
    | some i => .ok i
  match current_user.org_id with
  | some org =>
      if orgLeaseExists tables inspection.lease_id org then .ok ()
      else .error (.forbidden ("Access denied"))
  | none =>
      match current_user.db_user_id with
      | none => .error (.forbidden ("Access denied"))
      | some uid =>
          if tenantAccessExists tables inspection.lease_id uid then .ok ()
          else .error (.forbidden ("Access denied"))
  if require_draft ∧ inspection.status ≠ .draft then
    .error (.badRequest ("Inspection is not in draft status"))
  else
    .ok inspection

/-! ## Lifecycle endpoints (`app/routers/inspections.py`) -/

/-- Mutable lifecycle state touched by the endpoints: the inspections
table (items and evidence nested), the jobs outbox and the audit log. -/
structure LifecycleState where
  inspections : List Inspection
  jobs : List JobsOutbox
  audits : List AuditLog

/-- Replacement of an inspection row after mutation, keyed by id. -/
def updateInspection (inspections : List Inspection) (updated : Inspection) :
    List Inspection :=
  inspections.map (fun i => if i.id == updated.id then updated else i)

/-- All evidence rows of the `inspection_evidence` table. -/
def allEvidence (inspections : List Inspection) : List InspectionEvidence :=
  inspections.foldr (fun i acc => i.items.foldr (fun it a => it.evidence ++ a) acc) []

/-- Body of `POST /inspections/{id}/items` (schema
`InspectionItemCreate`, Golden Master field names). -/
structure InspectionItemCreate where
  room_key : String
  item_key : String
  ordinal : Int
  condition : InspectionCondition
  notes : Option String
deriving DecidableEq

/-- Model of `upsert_inspection_item`: after the authorization and draft
gates succeed, the item lookup at line 231 filters on
`InspectionItem.room_name == data.room_name` — but migration
`003_golden_master` renamed the columns to `room_key`/`item_key` and the
request schema field is `room_key`, so the attribute access raises
`AttributeError` before any query runs: no row is created or updated. -/
def upsert_inspection_item (tables : AuthTables) (st : LifecycleState)
    (current_user : AuthenticatedUser) (inspection_id : String)
    (_data : InspectionItemCreate) : Except HErr (LifecycleState × InspectionItem) := do
  let _inspection ← get_inspection_with_auth tables st.inspections current_user
    inspection_id true
  .error (.serverError
    ("AttributeError: type object InspectionItem has no attribute room_name"))

/-- Body of `POST /inspections/{id}/evidence/confirm`
(schema `EvidenceConfirmRequest`). -/
structure EvidenceConfirmRequest where
  inspection_item_id : String
  object_path : String
  confirm_idempotency_key : String
  mime_type : String
  size_bytes : Int
  file_sha256_claimed : String
deriving DecidableEq

/-- Response model of the confirm endpoint (`EvidenceResponse`). -/
structure EvidenceResponse where
  id : String
  inspection_item_id : String
  object_path : String
  mime_type : String
  size_bytes : Int
  file_sha256_claimed : String
  file_sha256_verified : Option String
  confirmed_at : DT
  evidence_source : EvidenceSource
  storage_instance_kind : StorageInstanceKind
  storage_instance_id : String
  confirm_idempotency_key : String
  created_at : DT
deriving DecidableEq

/-- Response built from a stored evidence row (field-for-field copy, as
in both the replay and the fresh branch of the endpoint). -/
def evidenceResponseOf (e : InspectionEvidence) : EvidenceResponse :=
  { id := e.id, inspection_item_id := e.inspection_item_id,
    object_path := e.object_path, mime_type := e.mime_type,
    size_bytes := e.size_bytes, file_sha256_claimed := e.file_sha256_claimed,
    file_sha256_verified := e.file_sha256_verified, confirmed_at := e.confirmed_at,
    evidence_source := e.evidence_source,
    storage_instance_kind := e.storage_instance_kind,
    storage_instance_id := e.storage_instance_id,
    confirm_idempotency_key := e.confirm_idempotency_key,
    created_at := e.created_at }

/-- Model of `confirm_evidence_upload`.  The `_storage` argument stands
for the object-storage contents; it is never consulted, because after the
item lookup and the idempotency replay check the endpoint calls
`storage.head_object(...)` — a method `StorageService`
(`app/services/storage.py`) does not define (its providers only expose
`verify_object_exists`, returning a bool) — so every non-replay confirm
raises `AttributeError` before touching the database. -/
def confirm_evidence_upload (tables : AuthTables) (st : LifecycleState)
    (_storage : List (String × String)) (current_user : AuthenticatedUser)
    (inspection_id : String) (data : EvidenceConfirmRequest)
    (_new_evidence_id : String) (_now : DT) :
    Except HErr (LifecycleState × EvidenceResponse) := do
  let inspection ← get_inspection_with_auth tables st.inspections current_user
    inspection_id true
  let itemRows := inspection.items.filter (fun it => it.id == data.inspection_item_id)
  let itemOpt ← scalarOneOrNone itemRows
  let _item ←
    match itemOpt with
    | none => .error (.notFound ("Item not found"))
    | some it => .ok it
  let existingRows := (allEvidence st.inspections).filter (fun e =>
    e.inspection_item_id == data.inspection_item_id &&
      e.confirm_idempotency_key == data.confirm_idempotency_key)
  let existingOpt ← scalarOneOrNone existingRows
  match existingOpt with
  | some existing_evidence =>
      .ok (st, evidenceResponseOf existing_evidence)
  | none =>
      .error (.serverError
        ("AttributeError: StorageService object has no attribute head_object"))

/-- Response of the submit endpoint. -/
structure InspectionSubmitResponse where
  inspection_id : String
  status : InspectionStatus
  content_hash : String
deriving DecidableEq

/-- Audit entry written by `submit_inspection`
(`AuditService.log_inspection_submitted`). -/
def audit_inspection_submitted (inspection_id : String) (org_id : Option String)
    (user_id : Option String) (content_hash : String) (ip : Option String) : AuditLog :=
  { action := "inspection_submitted", resource_type := "inspection",
    resource_id := inspection_id, org_id := org_id, user_id := user_id,
    details := .obj [("content_hash", .str content_hash)], ip_address := ip }

/-- Model of `submit_inspection`: after the draft gate, computes the
canonical hash of the inspection as loaded (status still `draft`,
`locked_at` still unset), then locks it — setting `locked_at`, the frozen
blob, both hash columns and `status = SUBMITTED` — enqueues the
certificate job, and writes the audit entry. -/
def submit_inspection (tables : AuthTables) (st : LifecycleState)
    (current_user : AuthenticatedUser) (inspection_id : String) (now : DT)
    (job_id : String) (ip : Option String) :
    Except HErr (LifecycleState × InspectionSubmitResponse) := do
  let inspection ← get_inspection_with_auth tables st.inspections current_user
    inspection_id true
  let r := compute_canonical_hash inspection
  let canonical_payload := r.1
  let sha256_hash := r.2.2
  let inspection' :=
    { inspection with
        locked_at := some now,
        canonical_json_blob := some canonical_payload,
        canonical_json_sha256 := some sha256_hash,
        content_hash := some sha256_hash,
        status := .submitted }
  let jobs' := (JobsService.enqueue_generate_certificate st.jobs job_id
    inspection.id sha256_hash now).2
  let audits' := st.audits ++
    [audit_inspection_submitted inspection_id current_user.org_id
      current_user.db_user_id sha256_hash ip]
  .ok ({ inspections := updateInspection st.inspections inspection',
         jobs := jobs', audits := audits' },
       { inspection_id := inspection.id, status := inspection'.status,
         content_hash := sha256_hash })

/-- Signature role of the sign endpoint (`signature_type`, validated by
the request pattern to be `tenant` or `landlord`). -/
inductive SignatureType where
  | tenant | landlord
deriving DecidableEq

/-- String form of the signature role (audit detail). -/
def SignatureType.value : SignatureType → String
  | .tenant => "tenant"
  | .landlord => "landlord"

/-- Response of the sign endpoint. -/
structure InspectionSignResponse where
  inspection_id : String
  status : InspectionStatus
  tenant_signed_at : Option DT
  landlord_signed_at : Option DT
deriving DecidableEq

/-- Audit entry written by `sign_inspection`. -/
def audit_inspection_signed (inspection_id : String) (org_id : Option String)
    (user_id : Option String) (signature_type : SignatureType) (ip : Option String) :
    AuditLog :=
  { action := "inspection_signed", resource_type := "inspection",
    resource_id := inspection_id, org_id := org_id, user_id := user_id,
    details := .obj [("signature_type", .str signature_type.value)],
    ip_address := ip }

/-- Model of `sign_inspection` (lease-scoped two-signature path): requires
status `SUBMITTED` or `REVIEWED`; each role may sign at most once, the
landlord role requires org membership, and status flips to `SIGNED`
exactly when both timestamps are present after the call. -/
def sign_inspection (tables : AuthTables) (st : LifecycleState)
    (current_user : AuthenticatedUser) (inspection_id : String)
    (signature_type : SignatureType) (now : DT) (ip : Option String) :
    Except HErr (LifecycleState × InspectionSignResponse) := do
  let inspection ← get_inspection_with_auth tables st.inspections current_user
    inspection_id false
  if inspection.status ≠ .submitted ∧ inspection.status ≠ .reviewed then
    .error (.badRequest ("Inspection must be submitted before signing"))
  else do
    let signed ←
      match signature_type with
      | .tenant =>
          if inspection.tenant_signed_at.isSome then
            .error (.badRequest ("Already signed by tenant"))
          else
            .ok { inspection with tenant_signed_at := some now }
      | .landlord =>
          if current_user.org_id.isNone then
            .error (.forbidden ("Only org members can sign as landlord"))
          else if inspection.landlord_signed_at.isSome then
            .error (.badRequest ("Already signed by landlord"))
          else
            .ok { inspection with landlord_signed_at := some now }
    let signed :=
      if signed.tenant_signed_at.isSome ∧ signed.landlord_signed_at.isSome then
        { signed with status := .signed }
      else signed
    let audits' := st.audits ++
      [audit_inspection_signed inspection_id current_user.org_id
        current_user.db_user_id signature_type ip]
    .ok ({ inspections := updateInspection st.inspections signed,
           jobs := st.jobs, audits := audits' },
         { inspection_id := signed.id, status := signed.status,
           tenant_signed_at := signed.tenant_signed_at,
           landlord_signed_at := signed.landlord_signed_at })

/-- Python truthiness of `inspection.content_hash`: falsy when `NULL` or
the empty string (`if not inspection.content_hash`). -/
def contentHashFalsy (inspection : Inspection) : Bool :=
  match inspection.content_hash with
  | none => true
  | some s => s == ""

/-- Canonical data built inline by the attestation path when
`content_hash` is falsy and the inspection has no items (`sorted` over an
empty list never calls its key function, so only fields that still exist
are read; `booking_id` is emitted verbatim, nulls included, and
`inspection_date` uses `isoformat()` without a `Z`). -/
def attestCanonicalData (inspection : Inspection) : Json :=
  .obj [("inspection_id", .str inspection.id),
        ("lease_id", .str inspection.lease_id),
        ("booking_id",
          match inspection.booking_id with
          | none => .null
          | some b => .str b),
        ("inspection_type", .str inspection.inspection_type.value),
        ("inspection_date", .str inspection.inspection_date.isoformat),
        ("items", .arr [])]

/-- Response of the attest endpoint. -/
structure InspectionAttestResponse where
  inspection_id : String
  status : InspectionStatus
  content_hash : String
  signed_by : InspectionSignedBy
  signed_actor_id : Option String
  signed_at : DT
deriving DecidableEq

/-- Audit entry written by `attest_inspection`. -/
def audit_inspection_attested (inspection_id : String) (org_id : Option String)
    (user_id : Option String) (content_hash : String) (booking_id : Option String)
    (inspection_type : InspectionType) (ip : Option String) : AuditLog :=
  { action := "inspection_attested", resource_type := "inspection",
    resource_id := inspection_id, org_id := org_id, user_id := user_id,
    details := .obj [("content_hash", .str content_hash),
                     ("booking_id",
                       match booking_id with
                       | none => .null
                       | some b => .str b),
                     ("inspection_type", .str inspection_type.value)],
    ip_address := ip }

/-- Model of `attest_inspection` (STR host attestation): requires org
membership (`require_org_member`), a booking-scoped inspection, and a not
yet signed status.  When `content_hash` is falsy it computes the hash
inline with the legacy `security.compute_content_hash` scheme over
denormalized fields — for an inspection that still has items this path
reads `item.room_name`, `item.condition_rating`, `ev.file_hash` and
`ev.is_confirmed`, all renamed or dropped by migration
`003_golden_master`, and raises `AttributeError` at the first sort-key
call.  On success it stamps `signed_by = HOST_SYSTEM`, the acting user,
`signed_at` and `status = SIGNED`. -/
def attest_inspection (tables : AuthTables) (st : LifecycleState)
    (current_user : AuthenticatedUser) (inspection_id : String) (now : DT)
    (ip : Option String) : Except HErr (LifecycleState × InspectionAttestResponse) := do
  if current_user.org_id.isNone then
    .error (.forbidden ("Organization membership required"))
  else do
    let inspection ← get_inspection_with_auth tables st.inspections current_user
      inspection_id false
    if inspection.scope ≠ .booking then
      .error (.badRequest
        ("Attestation is only available for booking-scoped (STR) inspections. Use /sign for lease-scoped inspections."))
    else if inspection.status = .signed then
      .error (.badRequest ("Inspection is already signed and immutable"))
    else do
      let content_hash ←
        if contentHashFalsy inspection then
          match inspection.items with
          | [] => .ok (compute_content_hash (attestCanonicalData inspection) 1)
          | _ :: _ =>
              .error (.serverError
                ("AttributeError: InspectionItem object has no attribute room_name"))
        else
          .ok (inspection.content_hash.getD "")
      let inspection' :=
        { inspection with
            content_hash := some content_hash,
            signed_by := some .HOST_SYSTEM,
            signed_actor_id := current_user.db_user_id,
            signed_at := some now,
            status := .signed }
      let audits' := st.audits ++
        [audit_inspection_attested inspection_id current_user.org_id
          current_user.db_user_id content_hash inspection.booking_id
          inspection.inspection_type ip]
      .ok ({ inspections := updateInspection st.inspections inspection',
             jobs := st.jobs, audits := audits' },
           { inspection_id := inspection.id, status := inspection'.status,
             content_hash := content_hash, signed_by := .HOST_SYSTEM,
             signed_actor_id := current_user.db_user_id, signed_at := now })

/-! ## Sorting lemmas

Python's `sorted` is stable, so its output on lists whose sort keys are
pairwise distinct is determined by the multiset of elements alone.  The
lemmas below make that precise for `pySorted`. -/

theorem sorted_perm_nodupKeys_eq {α κ : Type _} [LinearOrder κ] (key : α → κ) :
    ∀ {l₁ l₂ : List α}, l₁.Perm l₂ → l₁.Sorted (keyLe key) → l₂.Sorted (keyLe key) →
      (l₁.map key).Nodup → l₁ = l₂ := by
  intro l₁
  induction l₁ with
  | nil =>
    intro l₂ hp _ _ _
    exact hp.nil_eq
  | cons a t₁ ih =>
    intro l₂ hp hs₁ hs₂ hnd
    cases l₂ with
    | nil => exact absurd hp.symm.nil_eq (by simp)
    | cons b t₂ =>
      have hab : a ∈ b :: t₂ := hp.subset (List.mem_cons_self a t₁)
      have hba : b ∈ a :: t₁ := hp.symm.subset (List.mem_cons_self b t₂)
      have hnd₁ : ¬ key a ∈ t₁.map key := (List.nodup_cons.mp (by simpa using hnd)).1
      have hhead : a = b := by
        rcases List.mem_cons.mp hba with hba' | hba'
        · exact hba'.symm
        · rcases List.mem_cons.mp hab with hab' | hab'
          · exact hab'
          · have h1 : keyLe key a b := (List.sorted_cons.mp hs₁).1 b hba'
            have h2 : keyLe key b a := (List.sorted_cons.mp hs₂).1 a hab'
            have hk : key a = key b := le_antisymm h1 h2
            have hmem : key b ∈ t₁.map key := List.mem_map_of_mem key hba'
            exact absurd (hk ▸ hmem) hnd₁
      subst hhead
      have htail := ih hp.cons_inv (List.sorted_cons.mp hs₁).2 (List.sorted_cons.mp hs₂).2
        (List.nodup_cons.mp (by simpa using hnd)).2
      rw [htail]

theorem pySorted_perm_input_eq {α κ : Type _} [LinearOrder κ] (key : α → κ)
    {l₁ l₂ : List α} (hp : l₁.Perm l₂) (hnd : (l₁.map key).Nodup) :
    pySorted key l₁ = pySorted key l₂ := by
  apply sorted_perm_nodupKeys_eq key
  · exact (pySorted_perm key l₁).trans (hp.trans (pySorted_perm key l₂).symm)
  · exact List.sorted_insertionSort _ l₁
  · exact List.sorted_insertionSort _ l₂
  · exact (((pySorted_perm key l₁).map key).nodup_iff).mpr hnd

theorem orderedInsert_forall₂ {α κ : Type _} [LinearOrder κ] (key : α → κ)
    {R : α → α → Prop} (hkey : ∀ a b, R a b → key a = key b) {x y : α}
    (hxy : R x y) :
    ∀ {l l' : List α}, List.Forall₂ R l l' →
      List.Forall₂ R (l.orderedInsert (keyLe key) x) (l'.orderedInsert (keyLe key) y) := by
  intro l l' h
  induction h with
  | nil => exact List.Forall₂.cons hxy List.Forall₂.nil
  | @cons a b t t' hab htl ih =>
    simp only [List.orderedInsert]
    have hiff : keyLe key x a ↔ keyLe key y b := by
      unfold keyLe
      rw [hkey x y hxy, hkey a b hab]
    by_cases hc : keyLe key x a
    · rw [if_pos hc, if_pos (hiff.mp hc)]
      exact List.Forall₂.cons hxy (List.Forall₂.cons hab htl)
    · rw [if_neg hc, if_neg (fun h' => hc (hiff.mpr h'))]
      exact List.Forall₂.cons hab ih

theorem pySorted_forall₂ {α κ : Type _} [LinearOrder κ] (key : α → κ)
    {R : α → α → Prop} (hkey : ∀ a b, R a b → key a = key b) :
    ∀ {l l' : List α}, List.Forall₂ R l l' →
      List.Forall₂ R (pySorted key l) (pySorted key l') := by
  intro l l' h
  induction h with
  | nil => exact List.Forall₂.nil
  | cons hab _ ih =>
    exact orderedInsert_forall₂ key hkey hab ih

theorem map_eq_of_forall₂ {α β : Type _} {R : α → α → Prop} (f : α → β) :
    ∀ {l l' : List α}, List.Forall₂ R l l' →
      (∀ a ∈ l, ∀ b, R a b → f a = f b) → l.map f = l'.map f := by
  intro l l' h
  induction h with
  | nil => intro _; rfl
  | @cons a b t t' hab _ ih =>
    intro hf
    simp only [List.map_cons]
    rw [hf a (List.mem_cons_self a t) b hab,
      ih (fun a' ha' b' hr => hf a' (List.mem_cons_of_mem _ ha') b' hr)]

/-! ## Claim C1 — canonical serialization determinism and order independence -/

/-- Two in-memory item rows with identical logical content whose evidence
lists are permutations of one another. -/
def EvidencePermEq (i j : InspectionItem) : Prop :=
  i.id = j.id ∧ i.room_key = j.room_key ∧ i.item_key = j.item_key ∧
  i.ordinal = j.ordinal ∧ i.condition = j.condition ∧ i.notes = j.notes ∧
  i.mason_estimated_repair_cents = j.mason_estimated_repair_cents ∧
  i.evidence.Perm j.evidence

instance (i j : InspectionItem) : Decidable (EvidencePermEq i j) := by
  unfold EvidencePermEq
  infer_instance

theorem EvidencePermEq.key_eq {i j : InspectionItem} (h : EvidencePermEq i j) :
    itemSortKey i = itemSortKey j := by
  obtain ⟨_, h2, h3, h4, _, _, _, _⟩ := h
  unfold itemSortKey
  rw [h2, h3, h4]

theorem item_entry_congr {i j : InspectionItem} (h : EvidencePermEq i j)
    (hnd : (i.evidence.map evidenceSortKey).Nodup) :
    build_canonical_item_entry i = build_canonical_item_entry j := by
  obtain ⟨h1, h2, h3, h4, h5, h6, h7, hperm⟩ := h
  unfold build_canonical_item_entry build_canonical_item
  rw [h2, h3, h4, h5, h6, pySorted_perm_input_eq evidenceSortKey hperm hnd]

/-- The second items list is, up to a permutation of the list and of each
item's evidence list, the same as the first. -/
def ItemsPermUpToEvidence (l₁ l₂ : List InspectionItem) : Prop :=
  ∃ l, List.Forall₂ EvidencePermEq l₁ l ∧ l.Perm l₂

/-- Claim C1.  Canonical serialization is deterministic and
insertion-order independent: serializing an inspection twice without
intervening mutation yields byte-identical canonical output and the same
SHA-256 hash (the serializer is a pure function, so this is definitional
— stated as the first two conjuncts), and permuting the in-memory items
list (and each item's evidence list) changes neither the canonical bytes
nor the hash, because items are sorted internally by
`(room_key, ordinal, item_key)` and evidence by
`(confirmed_at, object_path)`; the pairwise-distinct sort keys are
guaranteed by the `uq_inspection_item_order` unique constraint and the
global uniqueness of `object_path`. -/
theorem C1_canonical_order_independence
    (insp : Inspection) (items₂ : List InspectionItem)
    (hperm : ItemsPermUpToEvidence insp.items items₂)
    (hkeys : (insp.items.map itemSortKey).Nodup)
    (hev : ∀ it ∈ insp.items, (it.evidence.map evidenceSortKey).Nodup) :
    (compute_canonical_hash insp).2.1 = (compute_canonical_hash insp).2.1 ∧
    (compute_canonical_hash insp).2.2 = (compute_canonical_hash insp).2.2 ∧
    serialize_canonical (build_canonical_payload { insp with items := items₂ }) =
      serialize_canonical (build_canonical_payload insp) ∧
    (compute_canonical_hash { insp with items := items₂ }).2.2 =
      (compute_canonical_hash insp).2.2 := by
  obtain ⟨l, hf, hp⟩ := hperm
  have hkeymap : insp.items.map itemSortKey = l.map itemSortKey :=
    map_eq_of_forall₂ itemSortKey hf (fun a _ b hr => hr.key_eq)
  have hkeysl : (l.map itemSortKey).Nodup := hkeymap ▸ hkeys
  have hsort2 : pySorted itemSortKey items₂ = pySorted itemSortKey l :=
    (pySorted_perm_input_eq itemSortKey hp hkeysl).symm
  have hf' : List.Forall₂ EvidencePermEq (pySorted itemSortKey insp.items)
      (pySorted itemSortKey l) :=
    pySorted_forall₂ itemSortKey (fun a b hr => hr.key_eq) hf
  have hmap : (pySorted itemSortKey insp.items).map build_canonical_item_entry =
      (pySorted itemSortKey l).map build_canonical_item_entry := by
    apply map_eq_of_forall₂ _ hf'
    intro a ha b hr
    exact item_entry_congr hr (hev a ((List.mem_insertionSort _).mp ha))
  have hpayload : build_canonical_payload { insp with items := items₂ } =
      build_canonical_payload insp := by
    unfold build_canonical_payload
    rw [show ({ insp with items := items₂ } : Inspection).items = items₂ from rfl,
      hsort2, ← hmap]
    rfl
  refine ⟨rfl, rfl, ?_, ?_⟩
  · rw [hpayload]
  · unfold compute_canonical_hash
    rw [hpayload]

/-! ## Concrete fixtures used by witnesses and counterexamples -/

set_option maxRecDepth 1000000

/-- Fixed inspection date used by the fixtures. -/
def dt0 : DT := ⟨2024, 5, 1, 10, 0, 0⟩

/-- Fixed clock value used for the mutating calls. -/
def now0 : DT := ⟨2024, 6, 1, 12, 0, 0⟩

/-- Auth tables: lease `l1` belongs through unit `u1` and property `p1`
to org `o1`. -/
def tables0 : AuthTables :=
  { properties := [{ id := "p1", org_id := "o1" }],
    units := [{ id := "u1", property_id := "p1" }],
    leases := [{ id := "l1", unit_id := "u1" }],
    tenant_access := [] }

/-- Caller: member of org `o1`. -/
def cu0 : AuthenticatedUser := { db_user_id := some "u9", org_id := some "o1" }

/-- Draft lease-scoped inspection with no items. -/
def d0 : Inspection :=
  { id := "i1", lease_id := "l1", inspection_type := .move_in, status := .draft,
    scope := .lease, booking_id := none, inspection_date := dt0,
    locked_at := none, device_signed_at := none, captured_offline := false,
    content_hash := none, canonical_json_blob := none, canonical_json_sha256 := none,
    tenant_signed_at := none, landlord_signed_at := none, signed_by := none,
    signed_actor_id := none, signed_at := none, notes := none, items := [] }

/-- Lifecycle state holding just `d0`. -/
def st0 : LifecycleState := { inspections := [d0], jobs := [], audits := [] }

/-- Evidence fixtures for the order-independence witness. -/
def evW1 : InspectionEvidence :=
  { id := "ev1", inspection_item_id := "it1", object_path := "paths/1",
    mime_type := "image/jpeg", size_bytes := 100, file_sha256_claimed := "c1",
    file_sha256_verified := none, confirmed_at := ⟨2024, 5, 1, 10, 0, 1⟩,
    evidence_source := .tenant, storage_instance_kind := .gcs_generation,
    storage_instance_id := "g1", confirm_idempotency_key := "k1",
    created_at := ⟨2024, 5, 1, 10, 0, 1⟩ }

/-- Second evidence row on the same item. -/
def evW2 : InspectionEvidence :=
  { evW1 with
    id := "ev2", object_path := "paths/2",
    confirmed_at := ⟨2024, 5, 1, 10, 0, 2⟩, confirm_idempotency_key := "k2",
    created_at := ⟨2024, 5, 1, 10, 0, 2⟩ }

/-- Evidence row on the second item. -/
def evW3 : InspectionEvidence :=
  { evW1 with
    id := "ev3", inspection_item_id := "it2", object_path := "paths/3",
    confirmed_at := ⟨2024, 5, 1, 10, 0, 3⟩, confirm_idempotency_key := "k3",
    created_at := ⟨2024, 5, 1, 10, 0, 3⟩ }

/-- Kitchen sink item with two evidence rows. -/
def itemW1 : InspectionItem :=
  { id := "it1", room_key := "kitchen", item_key := "sink", ordinal := 0,
    condition := .good, notes := none, mason_estimated_repair_cents := none,
    evidence := [evW1, evW2] }

/-- Bathroom mirror item with one evidence row. -/
def itemW2 : InspectionItem :=
  { id := "it2", room_key := "bath", item_key := "mirror", ordinal := 0,
    condition := .fair, notes := some "scratch", mason_estimated_repair_cents := none,
    evidence := [evW3] }

/-- The kitchen item with its evidence list reversed in memory. -/
def itemW1' : InspectionItem := { itemW1 with evidence := [evW2, evW1] }

/-- Inspection with two items, in one physical row order. -/
def inspW : Inspection := { d0 with items := [itemW1, itemW2] }

/-- The same logical items list in the other physical order, with the
kitchen item's evidence also reordered. -/
def itemsW2 : List InspectionItem := [itemW2, itemW1']

theorem itemsPermW : ItemsPermUpToEvidence inspW.items itemsW2 :=
  ⟨[itemW1', itemW2],
    List.Forall₂.cons (by decide) (List.Forall₂.cons (by decide) List.Forall₂.nil),
    by decide⟩

/-- Witness for C1 at the two-item fixture: both physical orders
serialize and hash identically. -/
theorem C1_canonical_order_independence_witness :
    serialize_canonical (build_canonical_payload { inspW with items := itemsW2 }) =
      serialize_canonical (build_canonical_payload inspW) ∧
    (compute_canonical_hash { inspW with items := itemsW2 }).2.2 =
      (compute_canonical_hash inspW).2.2 :=
  ⟨(C1_canonical_order_independence inspW itemsW2 itemsPermW (by decide) (by decide)).2.2.1,
   (C1_canonical_order_independence inspW itemsW2 itemsPermW (by decide) (by decide)).2.2.2⟩


/-! ## Gate evaluation helper -/

/-- Authorization outcome of `get_inspection_with_auth` for a loaded
inspection: the org-member property-chain join, or the tenant-access
lookup. -/
def authOkB (tables : AuthTables) (insp : Inspection) (cu : AuthenticatedUser) : Bool :=
  match cu.org_id with
  | some org => orgLeaseExists tables insp.lease_id org
  | none =>
    match cu.db_user_id with
    | none => false
    | some uid => tenantAccessExists tables insp.lease_id uid

theorem get_auth_ok_of (tables : AuthTables) (l : List Inspection)
    (cu : AuthenticatedUser) (iid : String) (rd : Bool) (insp : Inspection)
    (hf : l.find? (fun i => i.id == iid) = some insp)
    (hauth : authOkB tables insp cu = true)
    (hdr : rd = true → insp.status = .draft) :
    get_inspection_with_auth tables l cu iid rd = .ok insp := by
  unfold get_inspection_with_auth
  rw [hf]
  unfold authOkB at hauth
  cases ho : cu.org_id with
  | some org =>
    rw [ho] at hauth
    simp only [] at hauth
    simp only [ho]
    cases rd with
    | false => simp [Bind.bind, Except.bind, hauth]
    | true => simp [Bind.bind, Except.bind, hauth, hdr rfl]
  | none =>
    rw [ho] at hauth
    cases hu : cu.db_user_id with
    | none => rw [hu] at hauth; exact absurd hauth (by simp)
    | some uid =>
      rw [hu] at hauth
      simp only [] at hauth
      simp only [ho, hu]
      cases rd with
      | false => simp [Bind.bind, Except.bind, hauth]
      | true => simp [Bind.bind, Except.bind, hauth, hdr rfl]

/-! ## Claim C2 — external re-verifiability of `content_hash` -/

/-- Boolean success test for `Except` results. -/
def exceptIsOk {ε α : Type _} : Except ε α → Bool
  | .ok _ => true
  | .error _ => false

/-- The inspection row as stored by a successful submit at time `now`. -/
def lockedInspection (insp : Inspection) (now : DT) : Inspection :=
  { insp with
      locked_at := some now,
      canonical_json_blob := some (compute_canonical_hash insp).1,
      canonical_json_sha256 := some (compute_canonical_hash insp).2.2,
      content_hash := some (compute_canonical_hash insp).2.2,
      status := .submitted }

/-- The canonical hash reads only the whitelisted header fields and the
items; two inspections agreeing there hash identically. -/
theorem compute_canonical_hash_eq_of (a b : Inspection)
    (h1 : a.id = b.id) (h2 : a.lease_id = b.lease_id)
    (h3 : a.inspection_type = b.inspection_type) (h4 : a.status = b.status)
    (h5 : a.locked_at = b.locked_at) (h6 : a.device_signed_at = b.device_signed_at)
    (h7 : a.captured_offline = b.captured_offline) (h8 : a.items = b.items) :
    compute_canonical_hash a = compute_canonical_hash b := by
  unfold compute_canonical_hash serialize_canonical build_canonical_payload
    build_canonical_header
  rw [h1, h2, h3, h4, h5, h6, h7, h8]

set_option maxHeartbeats 1000000

/-- Claim C2, amended.  Submit computes the canonical hash over the
inspection as loaded — header fields still reading `status = draft` and
`locked_at` still at its pre-submit value — and stores it as
`content_hash` while setting `locked_at := now` and
`status := submitted`.  Re-running the Canonical Serializer reproduces
the stored `content_hash` over the locked inspection with `status` and
`locked_at` reverted to those pre-lock values (the other fields submit
touches are not in the header whitelist); over the post-submit state as
such the serializer sees the new `status` and `locked_at`, which are
whitelisted, so the recomputed hash differs in general (see the
counterexample). -/
theorem C2_content_hash_reverifiable (tables : AuthTables) (st : LifecycleState)
    (current_user : AuthenticatedUser) (inspection_id : String) (now : DT)
    (job_id : String) (ip : Option String) (insp : Inspection)
    (hf : st.inspections.find? (fun i => i.id == inspection_id) = some insp)
    (hauth : authOkB tables insp current_user = true)
    (hdraft : insp.status = .draft) :
    submit_inspection tables st current_user inspection_id now job_id ip =
      .ok ({ inspections := updateInspection st.inspections (lockedInspection insp now),
             jobs := (JobsService.enqueue_generate_certificate st.jobs job_id insp.id
               (compute_canonical_hash insp).2.2 now).2,
             audits := st.audits ++
               [audit_inspection_submitted inspection_id current_user.org_id
                 current_user.db_user_id (compute_canonical_hash insp).2.2 ip] },
           { inspection_id := insp.id, status := .submitted,
             content_hash := (compute_canonical_hash insp).2.2 }) ∧
    (lockedInspection insp now).content_hash =
      some ((compute_canonical_hash insp).2.2) ∧
    (compute_canonical_hash
      { lockedInspection insp now with
          status := insp.status, locked_at := insp.locked_at }).2.2 =
      (compute_canonical_hash insp).2.2 := by
  have hget := get_auth_ok_of tables st.inspections current_user inspection_id true insp
    hf hauth (fun _ => hdraft)
  refine ⟨?_, rfl, ?_⟩
  · unfold submit_inspection
    rw [hget]
    rfl
  · exact congrArg (fun p => p.2.2)
      (compute_canonical_hash_eq_of _ insp rfl rfl rfl rfl rfl rfl rfl rfl)

/-- The post-submit state of `d0` as stored. -/
def postSubmit0 : Inspection :=
  match submit_inspection tables0 st0 cu0 ("i1") now0 ("j1") none with
  | .ok (st', _) => st'.inspections.headD d0
  | .error _ => d0

set_option maxHeartbeats 8000000

/-- Counterexample to C2 as stated: submit succeeds on `d0` and stores
the hash computed while the header still read `status = draft` with no
`locked_at`; re-running the Canonical Serializer over the inspection in
its post-submit state (now serializing `status = submitted` and the
`locked_at` timestamp, both of which are in the header whitelist)
produces a different hash. -/
theorem C2_counterexample :
    exceptIsOk (submit_inspection tables0 st0 cu0 ("i1") now0 ("j1") none) = true ∧
    postSubmit0.status = .submitted ∧
    postSubmit0.locked_at = some now0 ∧
    postSubmit0.content_hash = some ((compute_canonical_hash d0).2.2) ∧
    (compute_canonical_hash postSubmit0).2.2 ≠ (compute_canonical_hash d0).2.2 := by
  refine ⟨rfl, rfl, rfl, rfl, ?_⟩
  decide

/-- Witness for the amended C2 at the concrete draft inspection `d0`. -/
theorem C2_content_hash_reverifiable_witness :
    submit_inspection tables0 st0 cu0 ("i1") now0 ("j1") none =
      .ok ({ inspections := updateInspection st0.inspections (lockedInspection d0 now0),
             jobs := (JobsService.enqueue_generate_certificate st0.jobs ("j1") d0.id
               (compute_canonical_hash d0).2.2 now0).2,
             audits := st0.audits ++
               [audit_inspection_submitted ("i1") cu0.org_id cu0.db_user_id
                 (compute_canonical_hash d0).2.2 none] },
           { inspection_id := d0.id, status := .submitted,
             content_hash := (compute_canonical_hash d0).2.2 }) ∧
    (lockedInspection d0 now0).content_hash =
      some ((compute_canonical_hash d0).2.2) ∧
    (compute_canonical_hash
      { lockedInspection d0 now0 with
          status := d0.status, locked_at := d0.locked_at }).2.2 =
      (compute_canonical_hash d0).2.2 :=
  C2_content_hash_reverifiable tables0 st0 cu0 ("i1") now0 ("j1") none d0 rfl rfl rfl

/-! ## Claim C5 — outbox enqueue de-duplicates by `unique_scope` -/

/-- At most one outbox row per `unique_scope`. -/
def scopesNodup (jobs : List JobsOutbox) : Prop :=
  (jobs.map (fun j => j.unique_scope)).Nodup

/-- One recorded `enqueue` call. -/
structure EnqueueCall where
  job_id : String
  job_type : String
  payload : Json
  unique_scope : String
  run_after : Option DT
  now : DT

/-- State of the outbox after a sequence of `enqueue` calls. -/
def applyEnqueues (jobs : List JobsOutbox) (calls : List EnqueueCall) : List JobsOutbox :=
  calls.foldl
    (fun js c => (JobsService.enqueue js c.job_id c.job_type c.payload c.unique_scope
      c.run_after c.now).2)
    jobs

theorem enqueue_scopesNodup_preserved (jobs : List JobsOutbox) (job_id job_type : String)
    (payload : Json) (unique_scope : String) (run_after : Option DT) (now : DT)
    (h : scopesNodup jobs) :
    scopesNodup (JobsService.enqueue jobs job_id job_type payload unique_scope
      run_after now).2 := by
  unfold JobsService.enqueue
  by_cases hc : jobs.any (fun j => j.unique_scope == unique_scope)
  · rw [if_pos hc]
    exact h
  · rw [if_neg hc]
    unfold scopesNodup at h ⊢
    rw [List.map_append, List.map_singleton]
    apply List.Nodup.append h (List.nodup_singleton _)
    intro s hs hs'
    rw [List.mem_singleton] at hs'
    subst hs'
    rw [List.mem_map] at hs
    obtain ⟨j, hj, hjs⟩ := hs
    exact hc (List.any_eq_true.mpr ⟨j, hj, by simp [hjs]⟩)

theorem applyEnqueues_scopesNodup (calls : List EnqueueCall) :
    ∀ jobs, scopesNodup jobs → scopesNodup (applyEnqueues jobs calls) := by
  induction calls with
  | nil => intro jobs h; exact h
  | cons c rest ih =>
    intro jobs h
    exact ih _ (enqueue_scopesNodup_preserved jobs c.job_id c.job_type c.payload
      c.unique_scope c.run_after c.now h)

/-- Claim C5.  Enqueue de-duplicates by `unique_scope`: when a job with
the given scope already exists, enqueue is a no-op — no new row, no
error, and no new job id is returned; de-duplication preserves the
at-most-one-row-per-scope invariant, so after any sequence of enqueue
calls against an initially empty (or already duplicate-free) outbox
there is at most one row per `unique_scope`. -/
theorem C5_enqueue_unique_scope_dedup :
    (∀ (jobs : List JobsOutbox) (job_id job_type : String) (payload : Json)
        (unique_scope : String) (run_after : Option DT) (now : DT),
      (∃ j ∈ jobs, j.unique_scope = unique_scope) →
      JobsService.enqueue jobs job_id job_type payload unique_scope run_after now =
        (none, jobs)) ∧
    (∀ (jobs : List JobsOutbox) (job_id job_type : String) (payload : Json)
        (unique_scope : String) (run_after : Option DT) (now : DT),
      scopesNodup jobs →
      scopesNodup (JobsService.enqueue jobs job_id job_type payload unique_scope
        run_after now).2) ∧
    (∀ calls : List EnqueueCall, scopesNodup (applyEnqueues [] calls)) := by
  refine ⟨?_, enqueue_scopesNodup_preserved, fun calls =>
    applyEnqueues_scopesNodup calls [] (by simp [scopesNodup])⟩
  intro jobs job_id job_type payload unique_scope run_after now hex
  unfold JobsService.enqueue
  obtain ⟨j, hj, hjs⟩ := hex
  rw [if_pos (List.any_eq_true.mpr ⟨j, hj, by simp [hjs]⟩)]

/-- A pending job occupying scope `s1`. -/
def jobF1 : JobsOutbox :=
  { id := "j1", type := "verify_hash", payload := .obj [], status := .pending,
    unique_scope := "s1", attempts := 0, max_attempts := 3, last_error := none,
    run_after := dt0, created_at := dt0, started_at := none, completed_at := none }

/-- Witness for C5: enqueueing scope `s1` over an outbox that already
holds it is a no-op, and a duplicate-scope call sequence from the empty
outbox leaves a single row. -/
theorem C5_enqueue_unique_scope_dedup_witness :
    JobsService.enqueue [jobF1] ("j2") ("verify_hash") (.obj []) ("s1") none now0 =
      (none, [jobF1]) ∧
    scopesNodup (applyEnqueues []
      [{ job_id := "j1", job_type := "verify_hash", payload := .obj [],
         unique_scope := "s1", run_after := none, now := dt0 },
       { job_id := "j2", job_type := "verify_hash", payload := .obj [],
         unique_scope := "s1", run_after := none, now := now0 }]) :=
  ⟨C5_enqueue_unique_scope_dedup.1 [jobF1] ("j2") ("verify_hash") (.obj []) ("s1")
      none now0 ⟨jobF1, by simp, rfl⟩,
   C5_enqueue_unique_scope_dedup.2.2 _⟩

/-! ## Claim C10 — `complete_job` is unconditional on the current status -/

/-- Claim C10.  For every job present in the outbox, `complete_job` sets
its status to `completed` and stamps `completed_at`, whatever its current
status (pending, processing, failed or dead-lettered alike — there is no
precondition on the current status); rows with other ids are left
untouched. -/
theorem C10_complete_job_unconditional :
    (∀ (jobs : List JobsOutbox) (job_id : String) (now : DT) (j : JobsOutbox),
      j ∈ jobs → j.id = job_id →
      ({ j with status := .completed, completed_at := some now } : JobsOutbox) ∈
        JobsService.complete_job jobs job_id now) ∧
    (∀ (jobs : List JobsOutbox) (job_id : String) (now : DT) (j : JobsOutbox),
      j ∈ jobs → j.id ≠ job_id → j ∈ JobsService.complete_job jobs job_id now) := by
  constructor
  · intro jobs job_id now j hj hid
    unfold JobsService.complete_job
    have : ({ j with status := .completed, completed_at := some now } : JobsOutbox) =
        (fun k => if k.id == job_id then
          { k with status := JobStatus.completed, completed_at := some now }
          else k) j := by
      simp [hid]
    rw [this]
    exact List.mem_map_of_mem _ hj
  · intro jobs job_id now j hj hid
    unfold JobsService.complete_job
    have : j = (fun k => if k.id == job_id then
        { k with status := JobStatus.completed, completed_at := some now }
        else k) j := by
      simp [hid]
    rw [this]
    exact List.mem_map_of_mem _ hj

/-- A dead-lettered job. -/
def jobF2 : JobsOutbox :=
  { jobF1 with
    id := "j2", unique_scope := "s2", status := .dead_letter,
    attempts := 3, last_error := some "boom" }

/-- Witness for C10: completing a dead-lettered job marks it completed
and stamps `completed_at`; the unrelated pending row is untouched. -/
theorem C10_complete_job_unconditional_witness :
    ({ jobF2 with status := .completed, completed_at := some now0 } : JobsOutbox) ∈
      JobsService.complete_job [jobF1, jobF2] ("j2") now0 ∧
    jobF1 ∈ JobsService.complete_job [jobF1, jobF2] ("j2") now0 :=
  ⟨C10_complete_job_unconditional.1 [jobF1, jobF2] ("j2") now0 jobF2 (by simp) rfl,
   C10_complete_job_unconditional.2 [jobF1, jobF2] ("j2") now0 jobF1 (by simp)
     (by decide)⟩

/-! ## Fixtures for the lifecycle claims -/

/-- Confirmed evidence row with idempotency key `k1`. -/
def evE1 : InspectionEvidence :=
  { id := "e1", inspection_item_id := "it1", object_path := "orgs/o1/e1.jpg",
    mime_type := "image/jpeg", size_bytes := 1000, file_sha256_claimed := "h1",
    file_sha256_verified := none, confirmed_at := dt0, evidence_source := .landlord,
    storage_instance_kind := .gcs_generation, storage_instance_id := "gen1",
    confirm_idempotency_key := "k1", created_at := dt0 }

/-- Item holding `evE1`. -/
def itemE1 : InspectionItem :=
  { id := "it1", room_key := "kitchen", item_key := "sink", ordinal := 0,
    condition := .good, notes := none, mason_estimated_repair_cents := none,
    evidence := [evE1] }

/-- Draft inspection with one item and one confirmed evidence row. -/
def dE : Inspection := { d0 with id := "i2", items := [itemE1] }

/-- State holding `dE`. -/
def stE : LifecycleState := { inspections := [dE], jobs := [], audits := [] }

/-- Upsert body for the kitchen sink item. -/
def itemReq : InspectionItemCreate :=
  { room_key := "kitchen", item_key := "sink", ordinal := 0, condition := .good,
    notes := none }

/-- Replay of the `k1` confirm with every other body field different. -/
def confirmReplayReq : EvidenceConfirmRequest :=
  { inspection_item_id := "it1", object_path := "different/path.png",
    confirm_idempotency_key := "k1", mime_type := "image/png", size_bytes := 55,
    file_sha256_claimed := "DIFFERENTHASH" }

/-- Fresh confirm with a new idempotency key `k2`. -/
def confirmFreshReq : EvidenceConfirmRequest :=
  { inspection_item_id := "it1", object_path := "orgs/o1/e2.jpg",
    confirm_idempotency_key := "k2", mime_type := "image/jpeg", size_bytes := 2000,
    file_sha256_claimed := "h2" }

/-- Locked inspection whose status has been forced back to draft. -/
def dL : Inspection := { dE with id := "i3", locked_at := some now0 }

/-- State holding `dL`. -/
def stL : LifecycleState := { inspections := [dL], jobs := [], audits := [] }

/-- Submitted (locked) inspection. -/
def dSub : Inspection :=
  { dE with id := "i4", status := .submitted, locked_at := some now0 }

/-- State holding `dSub`. -/
def stSub : LifecycleState := { inspections := [dSub], jobs := [], audits := [] }

/-! ## Claim C9 — upsert item (code bug: stale column references) -/

/-- Claim C9, evaluated.  The draft gate works — an upsert attempted
outside draft is rejected with the wrong-state error — but for every
draft inspection the item lookup crashes with `AttributeError` before
any row is created or updated, because `upsert_inspection_item` still
filters on `InspectionItem.room_name`/`item_name` (and reads
`data.room_name`), names that migration `003_golden_master` renamed to
`room_key`/`item_key`; the lookup as written also omits `ordinal`, so
even the pre-rename behaviour keyed items by (room, item) only. -/
theorem C9_upsert_stale_columns :
    upsert_inspection_item tables0 stE cu0 ("i2") itemReq =
      .error (.serverError
        ("AttributeError: type object InspectionItem has no attribute room_name")) ∧
    upsert_inspection_item tables0 stSub cu0 ("i4") itemReq =
      .error (.badRequest ("Inspection is not in draft status")) :=
  ⟨rfl, rfl⟩

/-! ## Claim C6 — confirm existence check (code bug: missing method) -/

/-- Claim C6, evaluated.  A non-replay confirm never reaches an
existence check: `StorageService` defines no `head_object` method, so
the call raises `AttributeError` (an HTTP 500 server error, not the
client error the spec describes) whether or not the object exists in
storage; no evidence row, job, or audit entry is created (the error
escapes before any mutation). -/
theorem C6_confirm_head_object_missing :
    confirm_evidence_upload tables0 stE [] cu0 ("i2") confirmFreshReq ("e9") now0 =
      .error (.serverError
        ("AttributeError: StorageService object has no attribute head_object")) ∧
    confirm_evidence_upload tables0 stE [("orgs/o1/e2.jpg", "gen2")] cu0 ("i2")
        confirmFreshReq ("e9") now0 =
      .error (.serverError
        ("AttributeError: StorageService object has no attribute head_object")) :=
  ⟨rfl, rfl⟩

/-! ## Claim C3 — the immutability gate -/

theorem get_auth_wrongstate_of (tables : AuthTables) (l : List Inspection)
    (cu : AuthenticatedUser) (iid : String) (insp : Inspection)
    (hf : l.find? (fun i => i.id == iid) = some insp)
    (hauth : authOkB tables insp cu = true)
    (hnd : insp.status ≠ .draft) :
    get_inspection_with_auth tables l cu iid true =
      .error (.badRequest ("Inspection is not in draft status")) := by
  unfold get_inspection_with_auth
  rw [hf]
  unfold authOkB at hauth
  cases ho : cu.org_id with
  | some org =>
    rw [ho] at hauth
    simp only [] at hauth
    simp only [ho]
    simp [Bind.bind, Except.bind, hauth, hnd]
  | none =>
    rw [ho] at hauth
    cases hu : cu.db_user_id with
    | none => rw [hu] at hauth; exact absurd hauth (by simp)
    | some uid =>
      rw [hu] at hauth
      simp only [] at hauth
      simp only [ho, hu]
      simp [Bind.bind, Except.bind, hauth, hnd]

/-- Claim C3, amended.  The mutation gate of both `upsert_inspection_item`
and `confirm_evidence_upload` consults only `status`: the wrong-state
rejection (HTTP 400, "Inspection is not in draft status") occurs exactly
when `status ≠ draft`, whatever `locked_at` holds (the inspection here is
arbitrary, its `locked_at` unconstrained — the code never reads it).  In
particular, on an inspection whose `locked_at` is set but whose status
has been forced back to `draft`, the draft gate passes and mutation is
not rejected with the wrong-state error — the status value, not the lock
timestamp, is the authoritative gate (the mutation paths then fail only
because of the unrelated stale-column and missing-method defects, see C6
and C9). -/
theorem C3_gate_is_status_not_lock (tables : AuthTables) (st : LifecycleState)
    (storage : List (String × String)) (cu : AuthenticatedUser) (iid : String)
    (data : InspectionItemCreate) (dataC : EvidenceConfirmRequest)
    (nid : String) (now : DT) (insp : Inspection)
    (hf : st.inspections.find? (fun i => i.id == iid) = some insp)
    (hauth : authOkB tables insp cu = true) :
    ((upsert_inspection_item tables st cu iid data =
        .error (.badRequest ("Inspection is not in draft status"))) ↔
      insp.status ≠ .draft) ∧
    ((confirm_evidence_upload tables st storage cu iid dataC nid now =
        .error (.badRequest ("Inspection is not in draft status"))) ↔
      insp.status ≠ .draft) := by
  constructor
  · constructor
    · intro h hd
      have hget := get_auth_ok_of tables st.inspections cu iid true insp hf hauth
        (fun _ => hd)
      unfold upsert_inspection_item at h
      rw [hget] at h
      simp only [Bind.bind, Except.bind] at h
      exact absurd h (by simp)
    · intro hnd
      unfold upsert_inspection_item
      rw [get_auth_wrongstate_of tables st.inspections cu iid insp hf hauth hnd]
      rfl
  · constructor
    · intro h hd
      have hget := get_auth_ok_of tables st.inspections cu iid true insp hf hauth
        (fun _ => hd)
      unfold confirm_evidence_upload at h
      rw [hget] at h
      simp only [Bind.bind, Except.bind] at h
      rcases hrows : insp.items.filter (fun it => it.id == dataC.inspection_item_id) with
        _ | ⟨a, _ | ⟨b, rest⟩⟩
      · rw [hrows] at h
        simp [scalarOneOrNone] at h
      · rw [hrows] at h
        simp only [scalarOneOrNone, Except.bind] at h
        rcases hev : (allEvidence st.inspections).filter (fun ev =>
            ev.inspection_item_id == dataC.inspection_item_id &&
              ev.confirm_idempotency_key == dataC.confirm_idempotency_key) with
          _ | ⟨e, _ | ⟨e2, rest2⟩⟩
        · rw [hev] at h
          simp [scalarOneOrNone] at h
        · rw [hev] at h
          simp [scalarOneOrNone] at h
        · rw [hev] at h
          simp [scalarOneOrNone] at h
      · rw [hrows] at h
        simp [scalarOneOrNone] at h
    · intro hnd
      unfold confirm_evidence_upload
      rw [get_auth_wrongstate_of tables st.inspections cu iid insp hf hauth hnd]
      rfl

/-- Counterexample to C3 as stated: `dL` is locked (`locked_at` set) but
its status reads `draft`; an upsert attempt and a fresh confirm attempt
are not rejected with the wrong-state error — both pass the draft gate
(and then fail with the unrelated 500s of C6/C9), so the lock timestamp
is not the gate. -/
theorem C3_counterexample :
    dL.locked_at = some now0 ∧ dL.status = .draft ∧
    upsert_inspection_item tables0 stL cu0 ("i3") itemReq =
      .error (.serverError
        ("AttributeError: type object InspectionItem has no attribute room_name")) ∧
    confirm_evidence_upload tables0 stL [] cu0 ("i3") confirmFreshReq ("e9") now0 =
      .error (.serverError
        ("AttributeError: StorageService object has no attribute head_object")) :=
  ⟨rfl, rfl, rfl, rfl⟩

/-- Witness for the amended C3 at the locked-but-draft inspection `dL`
and at the submitted inspection `dSub`. -/
theorem C3_gate_is_status_not_lock_witness :
    (¬ (upsert_inspection_item tables0 stL cu0 ("i3") itemReq =
        .error (.badRequest ("Inspection is not in draft status")))) ∧
    (upsert_inspection_item tables0 stSub cu0 ("i4") itemReq =
      .error (.badRequest ("Inspection is not in draft status"))) :=
  ⟨fun h => ((C3_gate_is_status_not_lock tables0 stL [] cu0 ("i3") itemReq
      confirmFreshReq ("e9") now0 dL rfl rfl).1.mp h) rfl,
   (C3_gate_is_status_not_lock tables0 stSub [] cu0 ("i4") itemReq
      confirmFreshReq ("e9") now0 dSub rfl rfl).1.mpr (by decide)⟩

/-! ## Claim C4 — confirm is idempotent on (item, idempotency key) -/

/-- Claim C4.  When a row for `(item, idempotency key)` already exists —
by the `uq_evidence_confirm` unique constraint there is exactly one —
confirm returns that first-created row unchanged and performs no side
effects: the returned state is the input state (no new evidence row, no
enqueued job, no audit entry), the result does not depend on the storage
contents (no existence check — `storage` is universally quantified and
absent from the conclusion), and the request body beyond the two lookup
fields is ignored (`data`'s other fields, the fresh id and the clock are
likewise universally quantified and absent). -/
theorem C4_confirm_idempotent (tables : AuthTables) (st : LifecycleState)
    (storage : List (String × String)) (cu : AuthenticatedUser)
    (iid : String) (data : EvidenceConfirmRequest) (nid : String) (now : DT)
    (insp : Inspection) (itm : InspectionItem) (e : InspectionEvidence)
    (hf : st.inspections.find? (fun i => i.id == iid) = some insp)
    (hauth : authOkB tables insp cu = true)
    (hdraft : insp.status = .draft)
    (hitem : insp.items.filter (fun it => it.id == data.inspection_item_id) = [itm])
    (hev : (allEvidence st.inspections).filter (fun ev =>
      ev.inspection_item_id == data.inspection_item_id &&
        ev.confirm_idempotency_key == data.confirm_idempotency_key) = [e]) :
    confirm_evidence_upload tables st storage cu iid data nid now =
      .ok (st, evidenceResponseOf e) := by
  have hget := get_auth_ok_of tables st.inspections cu iid true insp hf hauth
    (fun _ => hdraft)
  unfold confirm_evidence_upload
  rw [hget]
  simp only [Bind.bind, Except.bind, hitem, hev, scalarOneOrNone]

/-- Witness for C4: replaying key `k1` on `dE` with a different object
path, MIME type, size and claimed hash — against two different storage
contents — returns the stored row `evE1` unchanged and leaves the state
untouched. -/
theorem C4_confirm_idempotent_witness :
    confirm_evidence_upload tables0 stE [] cu0 ("i2") confirmReplayReq ("e9") now0 =
      .ok (stE, evidenceResponseOf evE1) ∧
    confirm_evidence_upload tables0 stE [("orgs/o1/e1.jpg", "gen1")] cu0 ("i2")
        confirmReplayReq ("e8") dt0 =
      .ok (stE, evidenceResponseOf evE1) :=
  ⟨C4_confirm_idempotent tables0 stE [] cu0 ("i2") confirmReplayReq ("e9") now0
      dE itemE1 evE1 rfl rfl rfl rfl rfl,
   C4_confirm_idempotent tables0 stE [("orgs/o1/e1.jpg", "gen1")] cu0 ("i2")
      confirmReplayReq ("e8") dt0 dE itemE1 evE1 rfl rfl rfl rfl rfl⟩

/-! ## Claim C7 — attestation's inline hash vs the Canonical Serializer -/

/-- Booking-scoped (STR) draft inspection, no items, no content hash:
submit was skipped. -/
def b0 : Inspection :=
  { d0 with
    id := "i5", scope := .booking, booking_id := some "b1",
    inspection_type := .post_stay }

/-- State holding `b0`. -/
def stB0 : LifecycleState := { inspections := [b0], jobs := [], audits := [] }

theorem legacy_ne_canonical_b0 :
    compute_content_hash (attestCanonicalData b0) 1 ≠ (compute_canonical_hash b0).2.2 := by
  decide

/-- Claim C7, amended.  When a booking-scoped inspection is attested
without a prior submit, the attestation path computes `content_hash`
inline with the legacy `security.compute_content_hash` scheme — a
sorted-JSON hash with a `schema_version` key over denormalized field
names — not with the whitelist-based Canonical Serializer, and the two
schemes produce different hashes (final conjunct, at the concrete
inspection `b0`).  The inline computation is moreover only executable
when the inspection has no items: for any item the sort-key function
reads `item.room_name` and the data builder reads `condition_rating`,
`is_damaged`, `file_hash` and `is_confirmed`, all renamed or dropped by
migration `003_golden_master`, so it raises `AttributeError` (see the
C8 counterexample). -/
theorem C7_attest_inline_uses_legacy_scheme (tables : AuthTables) (st : LifecycleState)
    (cu : AuthenticatedUser) (iid : String) (now : DT) (ip : Option String)
    (insp : Inspection) (o : String)
    (horg : cu.org_id = some o)
    (hf : st.inspections.find? (fun i => i.id == iid) = some insp)
    (hauth : authOkB tables insp cu = true)
    (hscope : insp.scope = .booking)
    (hsig : insp.status ≠ .signed)
    (hfalsy : contentHashFalsy insp = true)
    (hitems : insp.items = []) :
    attest_inspection tables st cu iid now ip =
      .ok ({ inspections := updateInspection st.inspections
               { insp with
                   content_hash :=
                     some (compute_content_hash (attestCanonicalData insp) 1),
                   signed_by := some .HOST_SYSTEM,
                   signed_actor_id := cu.db_user_id,
                   signed_at := some now,
                   status := .signed },
             jobs := st.jobs,
             audits := st.audits ++
               [audit_inspection_attested iid cu.org_id cu.db_user_id
                 (compute_content_hash (attestCanonicalData insp) 1)
                 insp.booking_id insp.inspection_type ip] },
           { inspection_id := insp.id, status := .signed,
             content_hash := compute_content_hash (attestCanonicalData insp) 1,
             signed_by := .HOST_SYSTEM, signed_actor_id := cu.db_user_id,
             signed_at := now }) ∧
    compute_content_hash (attestCanonicalData b0) 1 ≠
      (compute_canonical_hash b0).2.2 := by
  refine ⟨?_, legacy_ne_canonical_b0⟩
  have hget := get_auth_ok_of tables st.inspections cu iid false insp hf hauth
    (fun h => nomatch h)
  unfold attest_inspection
  rw [horg]
  simp only [Option.isNone_some, Bool.false_eq_true, if_false]
  rw [hget]
  simp only [Bind.bind, Except.bind, hscope, hfalsy, hitems]
  simp [hsig]

/-- The attestation call on `b0` and the hash it stores. -/
def attestRun0 : Except HErr (LifecycleState × InspectionAttestResponse) :=
  attest_inspection tables0 stB0 cu0 ("i5") now0 none

/-- Content hash stored by that call. -/
def attestHash0 : String :=
  match attestRun0 with
  | .ok (_, resp) => resp.content_hash
  | .error _ => ""

/-- Counterexample to C7 as stated: attesting the never-submitted
booking inspection `b0` succeeds and stores the legacy-scheme hash,
which is not the hash the Canonical Serializer would produce for `b0`
before locking. -/
theorem C7_counterexample :
    exceptIsOk attestRun0 = true ∧
    attestHash0 = compute_content_hash (attestCanonicalData b0) 1 ∧
    attestHash0 ≠ (compute_canonical_hash b0).2.2 :=
  ⟨rfl, rfl, fun h => legacy_ne_canonical_b0
    (by rw [show compute_content_hash (attestCanonicalData b0) 1 = attestHash0 from rfl]
        exact h)⟩

/-- Witness for the amended C7 at `b0`. -/
theorem C7_attest_inline_uses_legacy_scheme_witness :
    attest_inspection tables0 stB0 cu0 ("i5") now0 none =
      .ok ({ inspections := updateInspection stB0.inspections
               { b0 with
                   content_hash :=
                     some (compute_content_hash (attestCanonicalData b0) 1),
                   signed_by := some .HOST_SYSTEM,
                   signed_actor_id := cu0.db_user_id,
                   signed_at := some now0,
                   status := .signed },
             jobs := stB0.jobs,
             audits := stB0.audits ++
               [audit_inspection_attested ("i5") cu0.org_id cu0.db_user_id
                 (compute_content_hash (attestCanonicalData b0) 1)
                 b0.booking_id b0.inspection_type none] },
           { inspection_id := b0.id, status := .signed,
             content_hash := compute_content_hash (attestCanonicalData b0) 1,
             signed_by := .HOST_SYSTEM, signed_actor_id := cu0.db_user_id,
             signed_at := now0 }) ∧
    compute_content_hash (attestCanonicalData b0) 1 ≠
      (compute_canonical_hash b0).2.2 :=
  C7_attest_inline_uses_legacy_scheme tables0 stB0 cu0 ("i5") now0 none b0 ("o1")
    rfl rfl rfl rfl (by decide) rfl rfl

/-! ## Claim C8 — signature gating -/

theorem sign_tenant_first_eval (tables : AuthTables) (st : LifecycleState)
    (cu : AuthenticatedUser) (iid : String) (now : DT) (ip : Option String)
    (insp : Inspection)
    (hf : st.inspections.find? (fun i => i.id == iid) = some insp)
    (hauth : authOkB tables insp cu = true)
    (hst : insp.status = .submitted ∨ insp.status = .reviewed)
    (hT : insp.tenant_signed_at = none)
    (hL : insp.landlord_signed_at = none) :
    sign_inspection tables st cu iid .tenant now ip =
      .ok ({ inspections := updateInspection st.inspections
               { insp with tenant_signed_at := some now },
             jobs := st.jobs,
             audits := st.audits ++
               [audit_inspection_signed iid cu.org_id cu.db_user_id .tenant ip] },
           { inspection_id := insp.id, status := insp.status,
             tenant_signed_at := some now, landlord_signed_at := none }) ∧
    insp.status ≠ .signed := by
  have hget := get_auth_ok_of tables st.inspections cu iid false insp hf hauth
    (fun h => nomatch h)
  constructor
  · unfold sign_inspection
    rw [hget]
    simp only [Bind.bind, Except.bind]
    rcases hst with hst | hst <;> simp [hst, hT, hL]
  · rcases hst with hst | hst <;> simp [hst]

theorem sign_tenant_twice_rejected (tables : AuthTables) (st : LifecycleState)
    (cu : AuthenticatedUser) (iid : String) (now : DT) (ip : Option String)
    (insp : Inspection) (t : DT)
    (hf : st.inspections.find? (fun i => i.id == iid) = some insp)
    (hauth : authOkB tables insp cu = true)
    (hst : insp.status = .submitted ∨ insp.status = .reviewed)
    (hT : insp.tenant_signed_at = some t) :
    sign_inspection tables st cu iid .tenant now ip =
      .error (.badRequest ("Already signed by tenant")) := by
  have hget := get_auth_ok_of tables st.inspections cu iid false insp hf hauth
    (fun h => nomatch h)
  unfold sign_inspection
  rw [hget]
  simp only [Bind.bind, Except.bind]
  rcases hst with hst | hst <;> simp [hst, hT]

theorem sign_landlord_twice_rejected (tables : AuthTables) (st : LifecycleState)
    (cu : AuthenticatedUser) (iid : String) (now : DT) (ip : Option String)
    (insp : Inspection) (o : String) (t : DT)
    (horg : cu.org_id = some o)
    (hf : st.inspections.find? (fun i => i.id == iid) = some insp)
    (hauth : authOkB tables insp cu = true)
    (hst : insp.status = .submitted ∨ insp.status = .reviewed)
    (hL : insp.landlord_signed_at = some t) :
    sign_inspection tables st cu iid .landlord now ip =
      .error (.badRequest ("Already signed by landlord")) := by
  have hget := get_auth_ok_of tables st.inspections cu iid false insp hf hauth
    (fun h => nomatch h)
  unfold sign_inspection
  rw [hget]
  simp only [Bind.bind, Except.bind]
  rcases hst with hst | hst <;> simp [hst, hL, horg]

theorem sign_landlord_completes (tables : AuthTables) (st : LifecycleState)
    (cu : AuthenticatedUser) (iid : String) (now : DT) (ip : Option String)
    (insp : Inspection) (o : String) (t : DT)
    (horg : cu.org_id = some o)
    (hf : st.inspections.find? (fun i => i.id == iid) = some insp)
    (hauth : authOkB tables insp cu = true)
    (hst : insp.status = .submitted ∨ insp.status = .reviewed)
    (hT : insp.tenant_signed_at = some t)
    (hL : insp.landlord_signed_at = none) :
    sign_inspection tables st cu iid .landlord now ip =
      .ok ({ inspections := updateInspection st.inspections
               { insp with landlord_signed_at := some now, status := .signed },
             jobs := st.jobs,
             audits := st.audits ++
               [audit_inspection_signed iid cu.org_id cu.db_user_id .landlord ip] },
           { inspection_id := insp.id, status := .signed,
             tenant_signed_at := some t, landlord_signed_at := some now }) := by
  have hget := get_auth_ok_of tables st.inspections cu iid false insp hf hauth
    (fun h => nomatch h)
  unfold sign_inspection
  rw [hget]
  simp only [Bind.bind, Except.bind]
  rcases hst with hst | hst <;> simp [hst, hT, hL, horg]

theorem attest_sets_signed (tables : AuthTables) (st : LifecycleState)
    (cu : AuthenticatedUser) (iid : String) (now : DT) (ip : Option String)
    (insp : Inspection) (o : String)
    (horg : cu.org_id = some o)
    (hf : st.inspections.find? (fun i => i.id == iid) = some insp)
    (hauth : authOkB tables insp cu = true)
    (hscope : insp.scope = .booking)
    (hsig : insp.status ≠ .signed)
    (hnf : contentHashFalsy insp = false) :
    attest_inspection tables st cu iid now ip =
      .ok ({ inspections := updateInspection st.inspections
               { insp with
                   content_hash := some (insp.content_hash.getD ""),
                   signed_by := some .HOST_SYSTEM,
                   signed_actor_id := cu.db_user_id,
                   signed_at := some now,
                   status := .signed },
             jobs := st.jobs,
             audits := st.audits ++
               [audit_inspection_attested iid cu.org_id cu.db_user_id
                 (insp.content_hash.getD "") insp.booking_id insp.inspection_type ip] },
           { inspection_id := insp.id, status := .signed,
             content_hash := insp.content_hash.getD "",
             signed_by := .HOST_SYSTEM, signed_actor_id := cu.db_user_id,
             signed_at := now }) := by
  have hget := get_auth_ok_of tables st.inspections cu iid false insp hf hauth
    (fun h => nomatch h)
  unfold attest_inspection
  rw [horg]
  simp only [Option.isNone_some, Bool.false_eq_true, if_false]
  rw [hget]
  simp only [Bind.bind, Except.bind, hscope, hnf]
  simp [hsig]

theorem attest_already_signed_rejected (tables : AuthTables) (st : LifecycleState)
    (cu : AuthenticatedUser) (iid : String) (now : DT) (ip : Option String)
    (insp : Inspection) (o : String)
    (horg : cu.org_id = some o)
    (hf : st.inspections.find? (fun i => i.id == iid) = some insp)
    (hauth : authOkB tables insp cu = true)
    (hscope : insp.scope = .booking)
    (hsigS : insp.status = .signed) :
    attest_inspection tables st cu iid now ip =
      .error (.badRequest ("Inspection is already signed and immutable")) := by
  have hget := get_auth_ok_of tables st.inspections cu iid false insp hf hauth
    (fun h => nomatch h)
  unfold attest_inspection
  rw [horg]
  simp only [Option.isNone_some, Bool.false_eq_true, if_false]
  rw [hget]
  simp only [Bind.bind, Except.bind, hscope]
  simp [hsigS]

theorem attest_lease_scope_rejected (tables : AuthTables) (st : LifecycleState)
    (cu : AuthenticatedUser) (iid : String) (now : DT) (ip : Option String)
    (insp : Inspection) (o : String)
    (horg : cu.org_id = some o)
    (hf : st.inspections.find? (fun i => i.id == iid) = some insp)
    (hauth : authOkB tables insp cu = true)
    (hscope : insp.scope = .lease) :
    attest_inspection tables st cu iid now ip =
      .error (.badRequest
        ("Attestation is only available for booking-scoped (STR) inspections. Use /sign for lease-scoped inspections.")) := by
  have hget := get_auth_ok_of tables st.inspections cu iid false insp hf hauth
    (fun h => nomatch h)
  unfold attest_inspection
  rw [horg]
  simp only [Option.isNone_some, Bool.false_eq_true, if_false]
  rw [hget]
  simp only [Bind.bind, Except.bind]
  simp [hscope]

theorem sign_landlord_first_eval (tables : AuthTables) (st : LifecycleState)
    (cu : AuthenticatedUser) (iid : String) (now : DT) (ip : Option String)
    (insp : Inspection) (o : String)
    (horg : cu.org_id = some o)
    (hf : st.inspections.find? (fun i => i.id == iid) = some insp)
    (hauth : authOkB tables insp cu = true)
    (hst : insp.status = .submitted ∨ insp.status = .reviewed)
    (hT : insp.tenant_signed_at = none)
    (hL : insp.landlord_signed_at = none) :
    sign_inspection tables st cu iid .landlord now ip =
      .ok ({ inspections := updateInspection st.inspections
               { insp with landlord_signed_at := some now },
             jobs := st.jobs,
             audits := st.audits ++
               [audit_inspection_signed iid cu.org_id cu.db_user_id .landlord ip] },
           { inspection_id := insp.id, status := insp.status,
             tenant_signed_at := none, landlord_signed_at := some now }) ∧
    insp.status ≠ .signed := by
  have hget := get_auth_ok_of tables st.inspections cu iid false insp hf hauth
    (fun h => nomatch h)
  constructor
  · unfold sign_inspection
    rw [hget]
    simp only [Bind.bind, Except.bind]
    rcases hst with hst | hst <;> simp [hst, hT, hL, horg]
  · rcases hst with hst | hst <;> simp [hst]

theorem sign_tenant_completes (tables : AuthTables) (st : LifecycleState)
    (cu : AuthenticatedUser) (iid : String) (now : DT) (ip : Option String)
    (insp : Inspection) (t : DT)
    (hf : st.inspections.find? (fun i => i.id == iid) = some insp)
    (hauth : authOkB tables insp cu = true)
    (hst : insp.status = .submitted ∨ insp.status = .reviewed)
    (hT : insp.tenant_signed_at = none)
    (hL : insp.landlord_signed_at = some t) :
    sign_inspection tables st cu iid .tenant now ip =
      .ok ({ inspections := updateInspection st.inspections
               { insp with tenant_signed_at := some now, status := .signed },
             jobs := st.jobs,
             audits := st.audits ++
               [audit_inspection_signed iid cu.org_id cu.db_user_id .tenant ip] },
           { inspection_id := insp.id, status := .signed,
             tenant_signed_at := some now, landlord_signed_at := some t }) := by
  have hget := get_auth_ok_of tables st.inspections cu iid false insp hf hauth
    (fun h => nomatch h)
  unfold sign_inspection
  rw [hget]
  simp only [Bind.bind, Except.bind]
  rcases hst with hst | hst <;> simp [hst, hT, hL]

theorem attest_inline_sets_signed (tables : AuthTables) (st : LifecycleState)
    (cu : AuthenticatedUser) (iid : String) (now : DT) (ip : Option String)
    (insp : Inspection) (o : String)
    (horg : cu.org_id = some o)
    (hf : st.inspections.find? (fun i => i.id == iid) = some insp)
    (hauth : authOkB tables insp cu = true)
    (hscope : insp.scope = .booking)
    (hsig : insp.status ≠ .signed)
    (hfalsy : contentHashFalsy insp = true)
    (hitems : insp.items = []) :
    attest_inspection tables st cu iid now ip =
      .ok ({ inspections := updateInspection st.inspections
               { insp with
                   content_hash :=
                     some (compute_content_hash (attestCanonicalData insp) 1),
                   signed_by := some .HOST_SYSTEM,
                   signed_actor_id := cu.db_user_id,
                   signed_at := some now,
                   status := .signed },
             jobs := st.jobs,
             audits := st.audits ++
               [audit_inspection_attested iid cu.org_id cu.db_user_id
                 (compute_content_hash (attestCanonicalData insp) 1)
                 insp.booking_id insp.inspection_type ip] },
           { inspection_id := insp.id, status := .signed,
             content_hash := compute_content_hash (attestCanonicalData insp) 1,
             signed_by := .HOST_SYSTEM, signed_actor_id := cu.db_user_id,
             signed_at := now }) := by
  have hget := get_auth_ok_of tables st.inspections cu iid false insp hf hauth
    (fun h => nomatch h)
  unfold attest_inspection
  rw [horg]
  simp only [Option.isNone_some, Bool.false_eq_true, if_false]
  rw [hget]
  simp only [Bind.bind, Except.bind, hscope, hfalsy, hitems]
  simp [hsig]

/-- Claim C8, amended.  Signature gating: on a lease-scoped inspection a
single first signature — by either role, tenant-first or landlord-first
— leaves the status unchanged (not `signed`); a role that has already
signed is rejected with an error and, the call failing, no state
changes; once the second of the two signatures is recorded — in either
order — the status flips to `signed` (with both timestamps present,
these conjuncts cover every combination of present/absent timestamps
and role, so the sign endpoint yields `signed` only when both
timestamps are present); a booking-scoped inspection whose
`content_hash` is already set, or which has no items, reaches `signed`
after exactly one attestation call (when `content_hash` is unset and
items remain, the inline-hash path crashes — see the counterexample and
C7); attestation on an already-signed inspection is rejected, and
attestation on a lease-scoped inspection is rejected, so a lease-scoped
inspection can only reach `signed` through both signatures. -/
theorem C8_signature_gating :
    (∀ (tables : AuthTables) (st : LifecycleState) (cu : AuthenticatedUser)
        (iid : String) (now : DT) (ip : Option String) (insp : Inspection),
      st.inspections.find? (fun i => i.id == iid) = some insp →
      authOkB tables insp cu = true →
      (insp.status = .submitted ∨ insp.status = .reviewed) →
      insp.tenant_signed_at = none → insp.landlord_signed_at = none →
      sign_inspection tables st cu iid .tenant now ip =
        .ok ({ inspections := updateInspection st.inspections
                 { insp with tenant_signed_at := some now },
               jobs := st.jobs,
               audits := st.audits ++
                 [audit_inspection_signed iid cu.org_id cu.db_user_id .tenant ip] },
             { inspection_id := insp.id, status := insp.status,
               tenant_signed_at := some now, landlord_signed_at := none }) ∧
        insp.status ≠ .signed) ∧
    (∀ (tables : AuthTables) (st : LifecycleState) (cu : AuthenticatedUser)
        (iid : String) (now : DT) (ip : Option String) (insp : Inspection)
        (o : String),
      cu.org_id = some o →
      st.inspections.find? (fun i => i.id == iid) = some insp →
      authOkB tables insp cu = true →
      (insp.status = .submitted ∨ insp.status = .reviewed) →
      insp.tenant_signed_at = none → insp.landlord_signed_at = none →
      sign_inspection tables st cu iid .landlord now ip =
        .ok ({ inspections := updateInspection st.inspections
                 { insp with landlord_signed_at := some now },
               jobs := st.jobs,
               audits := st.audits ++
                 [audit_inspection_signed iid cu.org_id cu.db_user_id .landlord ip] },
             { inspection_id := insp.id, status := insp.status,
               tenant_signed_at := none, landlord_signed_at := some now }) ∧
        insp.status ≠ .signed) ∧
    (∀ (tables : AuthTables) (st : LifecycleState) (cu : AuthenticatedUser)
        (iid : String) (now : DT) (ip : Option String) (insp : Inspection) (t : DT),
      st.inspections.find? (fun i => i.id == iid) = some insp →
      authOkB tables insp cu = true →
      (insp.status = .submitted ∨ insp.status = .reviewed) →
      insp.tenant_signed_at = some t →
      sign_inspection tables st cu iid .tenant now ip =
        .error (.badRequest ("Already signed by tenant"))) ∧
    (∀ (tables : AuthTables) (st : LifecycleState) (cu : AuthenticatedUser)
        (iid : String) (now : DT) (ip : Option String) (insp : Inspection)
        (o : String) (t : DT),
      cu.org_id = some o →
      st.inspections.find? (fun i => i.id == iid) = some insp →
      authOkB tables insp cu = true →
      (insp.status = .submitted ∨ insp.status = .reviewed) →
      insp.landlord_signed_at = some t →
      sign_inspection tables st cu iid .landlord now ip =
        .error (.badRequest ("Already signed by landlord"))) ∧
    (∀ (tables : AuthTables) (st : LifecycleState) (cu : AuthenticatedUser)
        (iid : String) (now : DT) (ip : Option String) (insp : Inspection)
        (o : String) (t : DT),
      cu.org_id = some o →
      st.inspections.find? (fun i => i.id == iid) = some insp →
      authOkB tables insp cu = true →
      (insp.status = .submitted ∨ insp.status = .reviewed) →
      insp.tenant_signed_at = some t → insp.landlord_signed_at = none →
      sign_inspection tables st cu iid .landlord now ip =
        .ok ({ inspections := updateInspection st.inspections
                 { insp with landlord_signed_at := some now, status := .signed },
               jobs := st.jobs,
               audits := st.audits ++
                 [audit_inspection_signed iid cu.org_id cu.db_user_id .landlord ip] },
             { inspection_id := insp.id, status := .signed,
               tenant_signed_at := some t, landlord_signed_at := some now })) ∧
    (∀ (tables : AuthTables) (st : LifecycleState) (cu : AuthenticatedUser)
        (iid : String) (now : DT) (ip : Option String) (insp : Inspection) (t : DT),
      st.inspections.find? (fun i => i.id == iid) = some insp →
      authOkB tables insp cu = true →
      (insp.status = .submitted ∨ insp.status = .reviewed) →
      insp.tenant_signed_at = none → insp.landlord_signed_at = some t →
      sign_inspection tables st cu iid .tenant now ip =
        .ok ({ inspections := updateInspection st.inspections
                 { insp with tenant_signed_at := some now, status := .signed },
               jobs := st.jobs,
               audits := st.audits ++
                 [audit_inspection_signed iid cu.org_id cu.db_user_id .tenant ip] },
             { inspection_id := insp.id, status := .signed,
               tenant_signed_at := some now, landlord_signed_at := some t })) ∧
    (∀ (tables : AuthTables) (st : LifecycleState) (cu : AuthenticatedUser)
        (iid : String) (now : DT) (ip : Option String) (insp : Inspection)
        (o : String),
      cu.org_id = some o →
      st.inspections.find? (fun i => i.id == iid) = some insp →
      authOkB tables insp cu = true →
      insp.scope = .booking → insp.status ≠ .signed →
      contentHashFalsy insp = false →
      attest_inspection tables st cu iid now ip =
        .ok ({ inspections := updateInspection st.inspections
                 { insp with
                     content_hash := some (insp.content_hash.getD ""),
                     signed_by := some .HOST_SYSTEM,
                     signed_actor_id := cu.db_user_id,
                     signed_at := some now,
                     status := .signed },
               jobs := st.jobs,
               audits := st.audits ++
                 [audit_inspection_attested iid cu.org_id cu.db_user_id
                   (insp.content_hash.getD "") insp.booking_id
                   insp.inspection_type ip] },
             { inspection_id := insp.id, status := .signed,
               content_hash := insp.content_hash.getD "",
               signed_by := .HOST_SYSTEM, signed_actor_id := cu.db_user_id,
               signed_at := now })) ∧
    (∀ (tables : AuthTables) (st : LifecycleState) (cu : AuthenticatedUser)
        (iid : String) (now : DT) (ip : Option String) (insp : Inspection)
        (o : String),
      cu.org_id = some o →
      st.inspections.find? (fun i => i.id == iid) = some insp →
      authOkB tables insp cu = true →
      insp.scope = .booking → insp.status ≠ .signed →
      contentHashFalsy insp = true → insp.items = [] →
      attest_inspection tables st cu iid now ip =
        .ok ({ inspections := updateInspection st.inspections
                 { insp with
                     content_hash :=
                       some (compute_content_hash (attestCanonicalData insp) 1),
                     signed_by := some .HOST_SYSTEM,
                     signed_actor_id := cu.db_user_id,
                     signed_at := some now,
                     status := .signed },
               jobs := st.jobs,
               audits := st.audits ++
                 [audit_inspection_attested iid cu.org_id cu.db_user_id
                   (compute_content_hash (attestCanonicalData insp) 1)
                   insp.booking_id insp.inspection_type ip] },
             { inspection_id := insp.id, status := .signed,
               content_hash := compute_content_hash (attestCanonicalData insp) 1,
               signed_by := .HOST_SYSTEM, signed_actor_id := cu.db_user_id,
               signed_at := now })) ∧
    (∀ (tables : AuthTables) (st : LifecycleState) (cu : AuthenticatedUser)
        (iid : String) (now : DT) (ip : Option String) (insp : Inspection)
        (o : String),
      cu.org_id = some o →
      st.inspections.find? (fun i => i.id == iid) = some insp →
      authOkB tables insp cu = true →
      insp.scope = .booking → insp.status = .signed →
      attest_inspection tables st cu iid now ip =
        .error (.badRequest ("Inspection is already signed and immutable"))) ∧
    (∀ (tables : AuthTables) (st : LifecycleState) (cu : AuthenticatedUser)
        (iid : String) (now : DT) (ip : Option String) (insp : Inspection)
        (o : String),
      cu.org_id = some o →
      st.inspections.find? (fun i => i.id == iid) = some insp →
      authOkB tables insp cu = true →
      insp.scope = .lease →
      attest_inspection tables st cu iid now ip =
        .error (.badRequest
          ("Attestation is only available for booking-scoped (STR) inspections. Use /sign for lease-scoped inspections."))) :=
  ⟨fun tables st cu iid now ip insp hf hauth hst hT hL =>
      sign_tenant_first_eval tables st cu iid now ip insp hf hauth hst hT hL,
   fun tables st cu iid now ip insp o horg hf hauth hst hT hL =>
      sign_landlord_first_eval tables st cu iid now ip insp o horg hf hauth hst hT hL,
   fun tables st cu iid now ip insp t hf hauth hst hT =>
      sign_tenant_twice_rejected tables st cu iid now ip insp t hf hauth hst hT,
   fun tables st cu iid now ip insp o t horg hf hauth hst hL =>
      sign_landlord_twice_rejected tables st cu iid now ip insp o t horg hf hauth hst hL,
   fun tables st cu iid now ip insp o t horg hf hauth hst hT hL =>
      sign_landlord_completes tables st cu iid now ip insp o t horg hf hauth hst hT hL,
   fun tables st cu iid now ip insp t hf hauth hst hT hL =>
      sign_tenant_completes tables st cu iid now ip insp t hf hauth hst hT hL,
   fun tables st cu iid now ip insp o horg hf hauth hscope hsig hnf =>
      attest_sets_signed tables st cu iid now ip insp o horg hf hauth hscope hsig hnf,
   fun tables st cu iid now ip insp o horg hf hauth hscope hsig hfalsy hitems =>
      attest_inline_sets_signed tables st cu iid now ip insp o horg hf hauth hscope
        hsig hfalsy hitems,
   fun tables st cu iid now ip insp o horg hf hauth hscope hsigS =>
      attest_already_signed_rejected tables st cu iid now ip insp o horg hf hauth hscope hsigS,
   fun tables st cu iid now ip insp o horg hf hauth hscope =>
      attest_lease_scope_rejected tables st cu iid now ip insp o horg hf hauth hscope⟩

/-- Submitted lease inspection already signed by the tenant. -/
def dSubT : Inspection := { dSub with id := "i6", tenant_signed_at := some dt0 }

/-- State holding `dSubT`. -/
def stSubT : LifecycleState := { inspections := [dSubT], jobs := [], audits := [] }

/-- Submitted lease inspection already signed by the landlord. -/
def dSubL : Inspection := { dSub with id := "i7", landlord_signed_at := some dt0 }

/-- State holding `dSubL`. -/
def stSubL : LifecycleState := { inspections := [dSubL], jobs := [], audits := [] }

/-- Submitted booking inspection with a content hash (submit ran). -/
def bH : Inspection :=
  { b0 with id := "i8", content_hash := some "abc123", status := .submitted }

/-- State holding `bH`. -/
def stBH : LifecycleState := { inspections := [bH], jobs := [], audits := [] }

/-- Signed booking inspection. -/
def bS : Inspection :=
  { b0 with id := "i9", content_hash := some "abc123", status := .signed }

/-- State holding `bS`. -/
def stBS : LifecycleState := { inspections := [bS], jobs := [], audits := [] }

/-- Never-submitted booking inspection that still has an item. -/
def bI : Inspection := { b0 with id := "i10", items := [itemE1] }

/-- State holding `bI`. -/
def stBI : LifecycleState := { inspections := [bI], jobs := [], audits := [] }

/-- Counterexample to C8 as stated: `bI` is a booking-scoped inspection
(attested without prior submit, one item), yet one attestation call does
not leave it signed — the inline-hash path reads the pre-migration
column `room_name` and fails with a 500. -/
theorem C8_counterexample :
    bI.scope = .booking ∧ bI.status ≠ .signed ∧
    attest_inspection tables0 stBI cu0 ("i10") now0 none =
      .error (.serverError
        ("AttributeError: InspectionItem object has no attribute room_name")) :=
  ⟨rfl, by decide, rfl⟩

/-- Final status carried by a sign result. -/
def signResStatus (r : Except HErr (LifecycleState × InspectionSignResponse)) :
    Option InspectionStatus :=
  match r with
  | .ok (_, resp) => some resp.status
  | .error _ => none

/-- Final status carried by an attest result. -/
def attestResStatus (r : Except HErr (LifecycleState × InspectionAttestResponse)) :
    Option InspectionStatus :=
  match r with
  | .ok (_, resp) => some resp.status
  | .error _ => none

/-- Witness for the amended C8 at the concrete fixtures: a lone tenant
signature and a lone landlord signature each leave `dSub` submitted,
double-signing either role is rejected, the landlord's countersignature
on `dSubT` and the tenant's countersignature on `dSubL` each flip the
status to signed, one attestation signs `bH` (hash present) and one
signs the item-free `b0` (hash absent, no items), and attestation is
rejected on the signed `bS` and on the lease-scoped `dSub`. -/
theorem C8_signature_gating_witness :
    signResStatus (sign_inspection tables0 stSub cu0 ("i4") .tenant now0 none) =
      some .submitted ∧
    signResStatus (sign_inspection tables0 stSub cu0 ("i4") .landlord now0 none) =
      some .submitted ∧
    sign_inspection tables0 stSubT cu0 ("i6") .tenant now0 none =
      .error (.badRequest ("Already signed by tenant")) ∧
    sign_inspection tables0 stSubL cu0 ("i7") .landlord now0 none =
      .error (.badRequest ("Already signed by landlord")) ∧
    signResStatus (sign_inspection tables0 stSubT cu0 ("i6") .landlord now0 none) =
      some .signed ∧
    signResStatus (sign_inspection tables0 stSubL cu0 ("i7") .tenant now0 none) =
      some .signed ∧
    attestResStatus (attest_inspection tables0 stBH cu0 ("i8") now0 none) =
      some .signed ∧
    attestResStatus (attest_inspection tables0 stB0 cu0 ("i5") now0 none) =
      some .signed ∧
    attest_inspection tables0 stBS cu0 ("i9") now0 none =
      .error (.badRequest ("Inspection is already signed and immutable")) ∧
    attest_inspection tables0 stSub cu0 ("i4") now0 none =
      .error (.badRequest
        ("Attestation is only available for booking-scoped (STR) inspections. Use /sign for lease-scoped inspections.")) := by
  refine ⟨?_, ?_, ?_, ?_, ?_, ?_, ?_, ?_, ?_, ?_⟩
  · rw [(C8_signature_gating.1 tables0 stSub cu0 ("i4") now0 none dSub rfl rfl
      (Or.inl rfl) rfl rfl).1]
    rfl
  · rw [(C8_signature_gating.2.1 tables0 stSub cu0 ("i4") now0 none dSub
      ("o1") rfl rfl rfl (Or.inl rfl) rfl rfl).1]
    rfl
  · exact C8_signature_gating.2.2.1 tables0 stSubT cu0 ("i6") now0 none dSubT dt0
      rfl rfl (Or.inl rfl) rfl
  · exact C8_signature_gating.2.2.2.1 tables0 stSubL cu0 ("i7") now0 none dSubL
      ("o1") dt0 rfl rfl rfl (Or.inl rfl) rfl
  · rw [C8_signature_gating.2.2.2.2.1 tables0 stSubT cu0 ("i6") now0 none dSubT
      ("o1") dt0 rfl rfl rfl (Or.inl rfl) rfl rfl]
    rfl
  · rw [C8_signature_gating.2.2.2.2.2.1 tables0 stSubL cu0 ("i7") now0 none dSubL
      dt0 rfl rfl (Or.inl rfl) rfl rfl]
    rfl
  · rw [C8_signature_gating.2.2.2.2.2.2.1 tables0 stBH cu0 ("i8") now0 none bH
      ("o1") rfl rfl rfl rfl (by decide) rfl]
    rfl
  · rw [C8_signature_gating.2.2.2.2.2.2.2.1 tables0 stB0 cu0 ("i5") now0 none b0
      ("o1") rfl rfl rfl rfl (by decide) rfl rfl]
    rfl
  · exact C8_signature_gating.2.2.2.2.2.2.2.2.1 tables0 stBS cu0 ("i9") now0 none bS
      ("o1") rfl rfl rfl rfl rfl
  · exact C8_signature_gating.2.2.2.2.2.2.2.2.2 tables0 stSub cu0 ("i4") now0 none dSub
      ("o1") rfl rfl rfl rfl
